import Mathlib

/-!
# QuranLab: level engine and recitation pipeline

A shallow embedding of `src/src/core/QuranLabSystem.js`.

JavaScript numbers are modelled as rationals (`ℚ`); the one non-finite number
the source uses, the `Infinity` upper bound of the last tier, is `none` in
`TierConfig.max`.  A property that is `undefined` on a JavaScript object is
`none` in the corresponding `Option` field.

Comparisons of rationals agree with the comparisons of the finite doubles they
stand for.  Sums are exact here, while the source adds doubles: the two agree
when the operands and the sum are representable, as they are for safe integers
(`isSafeInteger`); statements about the value of a sum that would not survive
rounding are made on that range only.
-/

namespace QuranLab

/-! ## Level engine -/

/-- One value of the `spiritualLevels` table: `{ min, max, title, emoji }`.
`max = none` stands for `Infinity`. -/
structure TierConfig where
  min : ℕ
  max : Option ℕ
  title : String
  emoji : String
deriving DecidableEq, Repr

/-- Table entry `spiritualLevels.student` (QuranLabSystem.js line 59). -/
def spiritualLevels.student : TierConfig := ⟨0, some 100, "Student", "🌱"⟩

/-- Table entry `spiritualLevels.learner` (line 60). -/
def spiritualLevels.learner : TierConfig := ⟨101, some 500, "Learner", "📚"⟩

/-- Table entry `spiritualLevels.reciter` (line 61). -/
def spiritualLevels.reciter : TierConfig := ⟨501, some 1000, "Reciter", "🎵"⟩

/-- Table entry `spiritualLevels.hafiz` (line 62). -/
def spiritualLevels.hafiz : TierConfig := ⟨1001, some 5000, "Hafiz", "📖"⟩

/-- Table entry `spiritualLevels.qari` (line 63). -/
def spiritualLevels.qari : TierConfig := ⟨5001, some 10000, "Qari", "🎙️"⟩

/-- Table entry `spiritualLevels.master` (line 64); its `max` is `Infinity`. -/
def spiritualLevels.master : TierConfig := ⟨10001, none, "Master", "👑"⟩

/-- The entries `Object.entries(this.spiritualLevels)`: the table in insertion order
(lines 58-65). -/
def spiritualLevels : List (String × TierConfig) :=
  [ ("student", spiritualLevels.student),
    ("learner", spiritualLevels.learner),
    ("reciter", spiritualLevels.reciter),
    ("hafiz", spiritualLevels.hafiz),
    ("qari", spiritualLevels.qari),
    ("master", spiritualLevels.master) ]

/-- The loop guard `points >= config.min && points <= config.max` of
`calculateSpiritualLevel` (line 247). -/
def inRange (points : ℚ) (config : TierConfig) : Bool :=
  decide ((config.min : ℚ) ≤ points) &&
    (match config.max with
     | none => true
     | some m => decide (points ≤ (m : ℚ)))

/-- What `calculateSpiritualLevel` returns: either the record built inside the
loop (lines 248-254) or, after the loop, the raw table entry
`this.spiritualLevels.student` (line 257), which has no `level`, `points` or
`range` property. -/
inductive LevelValue where
  | record (level : String) (title : String) (emoji : String) (points : ℚ) (range : String)
  | raw (config : TierConfig)
deriving DecidableEq

/-- Property `level` of a level value (`undefined` on the raw entry). -/
def LevelValue.level : LevelValue → Option String
  | .record level _ _ _ _ => some level
  | .raw _ => none

/-- Property `title` of a level value. -/
def LevelValue.title : LevelValue → String
  | .record _ title _ _ _ => title
  | .raw config => config.title

/-- Property `points` of a level value (`undefined` on the raw entry). -/
def LevelValue.points : LevelValue → Option ℚ
  | .record _ _ _ points _ => some points
  | .raw _ => none

/-- The template string of line 253. -/
def rangeString (config : TierConfig) : String :=
  toString config.min ++ "-" ++
    (match config.max with
     | none => "∞"
     | some m => toString m)

/-- The `for ... of` loop of `calculateSpiritualLevel` (lines 246-256) over the
remaining entries; `none` when the loop ends without returning. -/
def calculateSpiritualLevel.loop (points : ℚ) : List (String × TierConfig) → Option LevelValue
  | [] => none
  | (level, config) :: rest =>
    if inRange points config then
      some (.record level config.title config.emoji points (rangeString config))
    else
      calculateSpiritualLevel.loop points rest

/-- Method `calculateSpiritualLevel(points)` (lines 245-258). -/
def calculateSpiritualLevel (points : ℚ) : LevelValue :=
  match calculateSpiritualLevel.loop points spiritualLevels with
  | some result => result
  | none => .raw spiritualLevels.student

/-- The call `Array.prototype.indexOf` on the key list, for a possibly `undefined`
search value: the first position holding the value, `-1` when there is none. -/
def indexOf (levels : List String) (key : Option String) : ℤ :=
  match key with
  | none => -1
  | some k => if k ∈ levels then (levels.indexOf k : ℤ) else -1

/-- The object returned by `getNextLevel` (lines 313-319).  `pointsNeeded` is
`none` when the subtraction yields `NaN` (the current level has no `points`). -/
structure NextLevel where
  level : String
  title : String
  emoji : String
  requirement : ℕ
  pointsNeeded : Option ℚ
deriving DecidableEq

/-- Method `getNextLevel(currentLevel)` (lines 306-323); `none` is `null`.  The entry
at position `currentIndex + 1` carries both `nextLevelKey` and
`this.spiritualLevels[nextLevelKey]`, the keys of the table being distinct. -/
def getNextLevel (currentLevel : LevelValue) : Option NextLevel :=
  let levels := spiritualLevels.map Prod.fst
  let currentIndex := indexOf levels currentLevel.level
  if currentIndex < (levels.length : ℤ) - 1 then
    match spiritualLevels.get? (currentIndex + 1).toNat with
    | some (nextLevelKey, nextLevel) =>
      some { level := nextLevelKey
             title := nextLevel.title
             emoji := nextLevel.emoji
             requirement := nextLevel.min
             pointsNeeded := currentLevel.points.map (fun p => (nextLevel.min : ℚ) - p) }
    | none => none
  else
    none

/-- The constant `hafizQariSystem.validationLayers.aiPreAnalysis.confidence` of
`src/config/quran-lab.config.js` (line 159). -/
def aiPreAnalysis.confidence : ℚ := 95 / 100

/-! ## Collaborator messages

The eight component modules required at the top of `QuranLabSystem.js` are not
part of the sources; their methods are parameters of the pipeline
(`Components`).  The argument objects the pipeline builds for them are the
structures below.  `timestamp: new Date()` fields and `console.log` lines are
left out. -/

/-- A thrown JavaScript error. -/
abbrev Error := String

/-- The `audioData` buffer. -/
abbrev Buffer := List ℕ

/-- The `options` argument of `analyzeRecitation`; an absent property is
`none` (`false` for the flag `requestHumanReview`). -/
structure Options where
  qiraat : Option String
  surah : Option ℕ
  ayah : Option ℕ
  requestHumanReview : Bool
  priority : Option String
deriving DecidableEq

/-- The result of `recitationAnalyzer.analyze`: the properties the pipeline
reads, and `confidence`, which the data model of the analysis result declares. -/
structure AiAnalysis where
  accuracy : ℚ
  improvement : ℚ
  needsHumanReview : Bool
  confidence : ℚ
  niyyah : Option ℚ
  blessings : ℚ
  suggestions : List String
deriving DecidableEq

/-- Argument of `recitationAnalyzer.analyze` (lines 112-120). -/
structure AnalyzeRequest where
  audio : Buffer
  userId : String
  accuracy : ℚ
  features : List String
  qiraat : String
  surah : Option ℕ
  ayah : Option ℕ
deriving DecidableEq

/-- Argument of `hafizCorrectionEngine.requestCorrection` (lines 127-133). -/
structure CorrectionRequest where
  analysis : AiAnalysis
  responseTime : String
  validationLayers : List String
  userId : String
  priority : String
deriving DecidableEq

/-- Result of `hafizCorrectionEngine.requestCorrection`. -/
structure Correction where
  status : String
deriving DecidableEq

/-- Argument of `blockchainAttestation.record` (lines 139-148). -/
structure AttestationRequest where
  userId : String
  improvement : ℚ
  spiritualBlessings : ℚ
  accuracy : ℚ
  qiraat : String
  surah : Option ℕ
  ayah : Option ℕ
deriving DecidableEq

/-- Result of `blockchainAttestation.record`. -/
structure Attestation where
  hash : String
deriving DecidableEq

/-- Argument of `jannahPointsCalculator.calculate` (lines 153-160). -/
structure PointsRequest where
  improvement : ℚ
  consistency : ℚ
  intention : ℚ
  teaching : ℚ
  perfectRecitation : Bool
  majorImprovement : Bool
deriving DecidableEq

/-- Result of `jannahPointsCalculator.calculate`. -/
structure JannahPoints where
  earned : ℚ
deriving DecidableEq

/-- Argument of `eternalRecordKeeper.store` (lines 165-173). -/
structure StoreRequest where
  analysis : AiAnalysis
  attestation : Attestation
  jannahPoints : JannahPoints
  hafizCorrection : Option Correction
  storageGuarantee : String
  userId : String
deriving DecidableEq

/-- Result of `eternalRecordKeeper.store`. -/
structure EternalRecord where
  permanentHash : String
deriving DecidableEq

/-- Argument of `notificationSystem.sendLevelUpNotification` (lines 270-275). -/
structure LevelUpNotification where
  userId : String
  oldLevel : LevelValue
  newLevel : LevelValue
  earnedPoints : ℚ
deriving DecidableEq

/-- Second argument of `progressAnalyzer.updateProgress` (lines 279-284). -/
structure ProgressUpdate where
  earnedPoints : ℚ
  newTotalPoints : ℚ
  newLevel : LevelValue
deriving DecidableEq

/-- Argument of `notificationSystem.sendProgressUpdate` (lines 181-186). -/
structure ProgressNotification where
  userId : String
  jannahPoints : JannahPoints
  spiritualLevel : LevelValue
  improvements : List String
deriving DecidableEq

/-- One call made to a collaborator, with its argument. -/
inductive Call where
  | analyze (req : AnalyzeRequest)
  | requestCorrection (req : CorrectionRequest)
  | record (req : AttestationRequest)
  | getConsistencyScore (userId : String)
  | getTeachingBonus (userId : String)
  | calculate (req : PointsRequest)
  | store (req : StoreRequest)
  | getProgress (userId : String)
  | sendLevelUpNotification (note : LevelUpNotification)
  | updateProgress (userId : String) (update : ProgressUpdate)
  | sendProgressUpdate (note : ProgressNotification)
deriving DecidableEq

/-- The behaviour of the collaborator methods the pipeline calls: each answers
a request with a result or throws. -/
structure Components where
  analyze : AnalyzeRequest → Except Error AiAnalysis
  requestCorrection : CorrectionRequest → Except Error Correction
  record : AttestationRequest → Except Error Attestation
  calculate : PointsRequest → Except Error JannahPoints
  store : StoreRequest → Except Error EternalRecord
  getConsistencyScore : String → Except Error ℚ
  getTeachingBonus : String → Except Error ℚ
  sendLevelUpNotification : LevelUpNotification → Except Error Unit
  sendProgressUpdate : ProgressNotification → Except Error Unit

/-- Modelled from the spec: the progress store behind
`progressAnalyzer.getProgress` and `progressAnalyzer.updateProgress`, whose
module is not part of the sources.  It holds each user's cumulative points
(`UserProgress.cumulativePoints`); `getProgress` reads them as `totalPoints`
and `updateProgress` replaces them by the `newTotalPoints` it is given. -/
abbrev ProgressStore := String → ℚ

/-- Modelled from the spec: the effect of `progressAnalyzer.updateProgress` on
the progress store (the module is not part of the sources): the user's
cumulative points become `newTotalPoints`. -/
def ProgressStore.write (store : ProgressStore) (userId : String) (newTotalPoints : ℚ) :
    ProgressStore :=
  fun u => if u = userId then newTotalPoints else store u

/-! ## Asynchronous methods

An `async` method is a function from the progress store to an outcome: the
value it resolves to or the error it rejects with, the progress store it
leaves, and the collaborator calls it made, in order. -/

/-- What running an `async` method produces. -/
structure Outcome (α : Type) where
  result : Except Error α
  store : ProgressStore
  calls : List Call

/-- The outcome of a continuation, with the calls made before it put in front. -/
def Outcome.prepend {α : Type} (cs : List Call) (o : Outcome α) : Outcome α :=
  ⟨o.result, o.store, cs ++ o.calls⟩

/-- An `async` method. -/
def Eff (α : Type) : Type := ProgressStore → Outcome α

/-- Resolve with a value, calling nothing. -/
def Eff.pure {α : Type} (a : α) : Eff α := fun s => ⟨.ok a, s, []⟩

/-- Sequencing with `await`: the continuation runs only when the first part
resolves; a rejection ends the method. -/
def Eff.bind {α β : Type} (m : Eff α) (f : α → Eff β) : Eff β := fun s =>
  match m s with
  | ⟨.ok a, s1, cs⟩ => (f a s1).prepend cs
  | ⟨.error e, s1, cs⟩ => ⟨.error e, s1, cs⟩

instance : Monad Eff where
  pure := Eff.pure
  bind := Eff.bind

/-- The statement `throw error`. -/
def Eff.throw {α : Type} (e : Error) : Eff α := fun s => ⟨.error e, s, []⟩

/-- The statement `try { body } catch (error) { handler }`. -/
def Eff.tryCatch {α : Type} (body : Eff α) (handler : Error → Eff α) : Eff α := fun s =>
  match body s with
  | ⟨.ok a, s1, cs⟩ => ⟨.ok a, s1, cs⟩
  | ⟨.error e, s1, cs⟩ => (handler e s1).prepend cs

/-- Awaiting a method of a collaborator in `Components`: the call is logged and
its answer is the method's. -/
def Eff.call {α : Type} (c : Call) (answer : Except Error α) : Eff α := fun s => ⟨answer, s, [c]⟩

/-- The object `progressAnalyzer.getProgress` resolves to; only `totalPoints`
is read by the level logic. -/
structure Progress where
  totalPoints : ℚ
deriving DecidableEq

/-- Modelled from the spec: `progressAnalyzer.getProgress(userId)` (the module
is not part of the sources) reads the user's cumulative points from the
progress store. -/
def progressAnalyzer.getProgress (userId : String) : Eff Progress := fun s =>
  ⟨.ok ⟨s userId⟩, s, [.getProgress userId]⟩

/-- Modelled from the spec: `progressAnalyzer.updateProgress(userId, update)`
(the module is not part of the sources) writes `update.newTotalPoints` to the
progress store. -/
def progressAnalyzer.updateProgress (userId : String) (update : ProgressUpdate) : Eff Unit :=
  fun s => ⟨.ok (), s.write userId update.newTotalPoints, [.updateProgress userId update]⟩

/-! ## The pipeline -/

/-- The object returned by `getSpiritualProgress` (lines 230-239); the fields
copied unchanged from the progress object are left out. -/
structure SpiritualProgress where
  userId : String
  totalPoints : ℚ
  currentLevel : LevelValue
  nextLevel : Option NextLevel
deriving DecidableEq

/-- Method `getSpiritualProgress(userId)` (lines 226-240). -/
def getSpiritualProgress (userId : String) : Eff SpiritualProgress := do
  let progress ← progressAnalyzer.getProgress userId
  let currentLevel := calculateSpiritualLevel progress.totalPoints
  return { userId := userId
           totalPoints := progress.totalPoints
           currentLevel := currentLevel
           nextLevel := getNextLevel currentLevel }

/-- Method `updateSpiritualProgress(userId, earnedPoints)` (lines 263-287).  The
sum of line 265 is the exact sum of the two rationals. -/
def updateSpiritualProgress (components : Components) (userId : String) (earnedPoints : ℚ) :
    Eff LevelValue := do
  let currentProgress ← getSpiritualProgress userId
  let newTotalPoints := currentProgress.totalPoints + earnedPoints
  let newLevel := calculateSpiritualLevel newTotalPoints
  if newLevel.level ≠ currentProgress.currentLevel.level then
    let note : LevelUpNotification :=
      { userId := userId
        oldLevel := currentProgress.currentLevel
        newLevel := newLevel
        earnedPoints := earnedPoints }
    Eff.call (.sendLevelUpNotification note) (components.sendLevelUpNotification note)
  progressAnalyzer.updateProgress userId
    { earnedPoints := earnedPoints
      newTotalPoints := newTotalPoints
      newLevel := newLevel }
  return newLevel

/-- Method `getUserConsistency(userId)` (lines 292-294). -/
def getUserConsistency (components : Components) (userId : String) : Eff ℚ :=
  Eff.call (.getConsistencyScore userId) (components.getConsistencyScore userId)

/-- Method `getTeachingBonus(userId)` (lines 299-301). -/
def getTeachingBonus (components : Components) (userId : String) : Eff ℚ :=
  Eff.call (.getTeachingBonus userId) (components.getTeachingBonus userId)

/-- The expression `value || fallback` on an optional string: `undefined` and
the empty string are falsy. -/
def orString (value : Option String) (fallback : String) : String :=
  match value with
  | some v => if v = "" then fallback else v
  | none => fallback

/-- The expression `value || fallback` on an optional number: `undefined` and
`0` are falsy. -/
def orNumber (value : Option ℚ) (fallback : ℚ) : ℚ :=
  match value with
  | some v => if v = 0 then fallback else v
  | none => fallback

/-- The object `analyzeRecitation` resolves to (lines 189-199). -/
structure Results where
  success : Bool
  analysis : AiAnalysis
  correction : Option Correction
  attestation : Attestation
  jannahPoints : JannahPoints
  eternalRecord : EternalRecord
  spiritualLevel : LevelValue
  motto : String
deriving DecidableEq

/-- The argument built for `recitationAnalyzer.analyze` (lines 112-120);
`this.accuracy` is `99.9`. -/
def analyzeRequest (audioData : Buffer) (userId : String) (options : Options) : AnalyzeRequest :=
  { audio := audioData
    userId := userId
    accuracy := 999 / 10
    features := ["zer", "zabar", "pesh", "makharij", "tajweed"]
    qiraat := orString options.qiraat "Hafs"
    surah := options.surah
    ayah := options.ayah }

/-- The argument built for `hafizCorrectionEngine.requestCorrection`
(lines 127-133); `this.responseTime` is `30`. -/
def correctionRequest (aiAnalysis : AiAnalysis) (userId : String) (options : Options) :
    CorrectionRequest :=
  { analysis := aiAnalysis
    responseTime := "< 30 minutes"
    validationLayers := ["AI", "Human", "Scholar", "Community"]
    userId := userId
    priority := orString options.priority "normal" }

/-- The argument built for `blockchainAttestation.record` (lines 139-148). -/
def attestationRequest (aiAnalysis : AiAnalysis) (userId : String) (options : Options) :
    AttestationRequest :=
  { userId := userId
    improvement := aiAnalysis.improvement
    spiritualBlessings := aiAnalysis.blessings
    accuracy := aiAnalysis.accuracy
    qiraat := orString options.qiraat "Hafs"
    surah := options.surah
    ayah := options.ayah }

/-- The argument built for `jannahPointsCalculator.calculate` (lines 153-160),
given the two awaited values `consistency` and `teaching`. -/
def pointsRequest (aiAnalysis : AiAnalysis) (consistency teaching : ℚ) : PointsRequest :=
  { improvement := aiAnalysis.improvement
    consistency := consistency
    intention := orNumber aiAnalysis.niyyah 1
    teaching := teaching
    perfectRecitation := decide (aiAnalysis.accuracy ≥ 99)
    majorImprovement := decide (aiAnalysis.improvement > 10) }

/-- Method `analyzeRecitation(audioData, userId, options)` (lines 107-208). -/
def analyzeRecitation (components : Components) (audioData : Buffer) (userId : String)
    (options : Options) : Eff Results :=
  Eff.tryCatch
    (do
      -- Step 1: AI Analysis
      let aiAnalysis ← Eff.call (.analyze (analyzeRequest audioData userId options))
        (components.analyze (analyzeRequest audioData userId options))
      -- Step 2: Human Correction (if needed)
      let hafizCorrection : Option Correction ←
        (if aiAnalysis.needsHumanReview || options.requestHumanReview then
          (do
            let c ← Eff.call (.requestCorrection (correctionRequest aiAnalysis userId options))
              (components.requestCorrection (correctionRequest aiAnalysis userId options))
            return some c)
        else
          Eff.pure none)
      -- Step 3: Blockchain Attestation
      let attestation ← Eff.call (.record (attestationRequest aiAnalysis userId options))
        (components.record (attestationRequest aiAnalysis userId options))
      -- Step 4: Jannah Points Calculation
      let consistency ← getUserConsistency components userId
      let teaching ← getTeachingBonus components userId
      let jannahPoints ← Eff.call (.calculate (pointsRequest aiAnalysis consistency teaching))
        (components.calculate (pointsRequest aiAnalysis consistency teaching))
      -- Step 5: Eternal Storage
      let storeRequest : StoreRequest :=
        { analysis := aiAnalysis
          attestation := attestation
          jannahPoints := jannahPoints
          hafizCorrection := hafizCorrection
          storageGuarantee := "200+ years"
          userId := userId }
      let eternalRecord ← Eff.call (.store storeRequest) (components.store storeRequest)
      -- Step 6: Update Spiritual Progress
      let spiritualLevel ← updateSpiritualProgress components userId jannahPoints.earned
      -- Step 7: Send Notifications
      let note : ProgressNotification :=
        { userId := userId
          jannahPoints := jannahPoints
          spiritualLevel := spiritualLevel
          improvements := aiAnalysis.suggestions }
      Eff.call (.sendProgressUpdate note) (components.sendProgressUpdate note)
      return { success := true
               analysis := aiAnalysis
               correction := hafizCorrection
               attestation := attestation
               jannahPoints := jannahPoints
               eternalRecord := eternalRecord
               spiritualLevel := spiritualLevel
               motto := "Every letter counts for Jannah" })
    (fun error => Eff.throw error)

/-! ## Observations on a call log -/

/-- The level-up notifications sent in a call log, in order. -/
def levelUpNotifications : List Call → List LevelUpNotification
  | [] => []
  | .sendLevelUpNotification note :: rest => note :: levelUpNotifications rest
  | _ :: rest => levelUpNotifications rest

/-- The requests made to the points calculator in a call log, in order. -/
def calculatorRequests : List Call → List PointsRequest
  | [] => []
  | .calculate req :: rest => req :: calculatorRequests rest
  | _ :: rest => calculatorRequests rest

/-- The escalation requests made in a call log, in order. -/
def correctionRequests : List Call → List CorrectionRequest
  | [] => []
  | .requestCorrection req :: rest => req :: correctionRequests rest
  | _ :: rest => correctionRequests rest

/-- The attestation attempts made in a call log, in order. -/
def attestationRequests : List Call → List AttestationRequest
  | [] => []
  | .record req :: rest => req :: attestationRequests rest
  | _ :: rest => attestationRequests rest

/-- The progress notifications sent in a call log, in order. -/
def progressNotifications : List Call → List ProgressNotification
  | [] => []
  | .sendProgressUpdate note :: rest => note :: progressNotifications rest
  | _ :: rest => progressNotifications rest

/-- The writes made to the progress store in a call log, in order. -/
def progressUpdates : List Call → List (String × ProgressUpdate)
  | [] => []
  | .updateProgress userId update :: rest => (userId, update) :: progressUpdates rest
  | _ :: rest => progressUpdates rest

/-- Every collaborator method answers every request (none throws). -/
def Components.AllSucceed (components : Components) : Prop :=
  (∀ req, ∃ r, components.analyze req = .ok r) ∧
  (∀ req, ∃ r, components.requestCorrection req = .ok r) ∧
  (∀ req, ∃ r, components.record req = .ok r) ∧
  (∀ req, ∃ r, components.calculate req = .ok r) ∧
  (∀ req, ∃ r, components.store req = .ok r) ∧
  (∀ userId, ∃ r, components.getConsistencyScore userId = .ok r) ∧
  (∀ userId, ∃ r, components.getTeachingBonus userId = .ok r) ∧
  (∀ note, components.sendLevelUpNotification note = .ok ()) ∧
  (∀ note, components.sendProgressUpdate note = .ok ())

/-- The integers that `Number.isSafeInteger` accepts: magnitude at most
`2 ^ 53 - 1`.  On two such integers whose sum is again one, the `+` of
JavaScript numbers is the exact sum. -/
def isSafeInteger (x : ℤ) : Prop := -(2 ^ 53 - 1) ≤ x ∧ x ≤ 2 ^ 53 - 1

/-- The level record built by the loop body of `calculateSpiritualLevel` for a
table entry. -/
def levelRecord (entry : String × TierConfig) (points : ℚ) : LevelValue :=
  .record entry.1 entry.2.title entry.2.emoji points (rangeString entry.2)

/-! ## Sample inputs -/

/-- Components that all succeed: the analysis service answers `analysis`, the
points calculator awards `earned`. -/
def sampleComponents (analysis : AiAnalysis) (earned : ℚ) : Components :=
  { analyze := fun _ => .ok analysis
    requestCorrection := fun _ => .ok ⟨"pending"⟩
    record := fun _ => .ok ⟨"0xabc"⟩
    calculate := fun _ => .ok ⟨earned⟩
    store := fun _ => .ok ⟨"0xdef"⟩
    getConsistencyScore := fun _ => .ok (4 / 5)
    getTeachingBonus := fun _ => .ok 1
    sendLevelUpNotification := fun _ => .ok ()
    sendProgressUpdate := fun _ => .ok () }

/-- The components of `sampleComponents`, except that
`blockchainAttestation.record` throws. -/
def failingAttestation (analysis : AiAnalysis) (earned : ℚ) : Components :=
  { sampleComponents analysis earned with record := fun _ => .error "attestation failed" }

/-- Components that validate their input: the attestation ledger throws on an
accuracy outside `0..100` and the points calculator throws on a negative
consistency; on other requests they answer like `sampleComponents`. -/
def validatingComponents (analysis : AiAnalysis) (earned : ℚ) : Components :=
  { sampleComponents analysis earned with
    record := fun req =>
      if 0 ≤ req.accuracy ∧ req.accuracy ≤ 100 then .ok ⟨"0xabc"⟩
      else .error "invalid accuracy"
    calculate := fun req =>
      if req.consistency < 0 then .error "scoring-error" else .ok ⟨earned⟩ }

/-- An analysis at both thresholds: accuracy `99`, improvement `10`; no review
asked for, confidence `0.5`. -/
def sampleAnalysis : AiAnalysis :=
  { accuracy := 99
    improvement := 10
    needsHumanReview := false
    confidence := 1 / 2
    niyyah := none
    blessings := 0
    suggestions := [] }

/-- An analysis outside the declared ranges: accuracy `150`, confidence `2`. -/
def outOfRangeAnalysis : AiAnalysis :=
  { sampleAnalysis with accuracy := 150, confidence := 2 }

/-- Options with no property set. -/
def sampleOptions : Options :=
  { qiraat := none
    surah := none
    ayah := none
    requestHumanReview := false
    priority := none }

/-- A progress store in which every user has `points` cumulative points. -/
def sampleStore (points : ℚ) : ProgressStore := fun _ => points

/-! ## Level engine: lemmas -/

theorem mem_spiritualLevels (e : String × TierConfig) :
    e ∈ spiritualLevels ↔
      e = ("student", spiritualLevels.student) ∨ e = ("learner", spiritualLevels.learner) ∨
      e = ("reciter", spiritualLevels.reciter) ∨ e = ("hafiz", spiritualLevels.hafiz) ∨
      e = ("qari", spiritualLevels.qari) ∨ e = ("master", spiritualLevels.master) := by
  simp [spiritualLevels]

theorem inRange_iff (p : ℚ) (c : TierConfig) :
    inRange p c = true ↔ (c.min : ℚ) ≤ p ∧ ∀ m, c.max = some m → p ≤ (m : ℚ) := by
  cases c with
  | mk mn mx t e =>
    cases mx <;> simp [inRange]

/-- Whatever tier of the table contains `points`, the loop returns the record
of that tier: the ranges do not overlap, so the first match is the only one. -/
theorem calculateSpiritualLevel_of_mem (p : ℚ) (e : String × TierConfig)
    (he : e ∈ spiritualLevels) (hr : inRange p e.2 = true) :
    calculateSpiritualLevel.loop p spiritualLevels = some (levelRecord e p) := by
  rw [mem_spiritualLevels] at he
  rw [inRange_iff] at hr
  obtain ⟨h1, h2⟩ := hr
  rcases he with rfl | rfl | rfl | rfl | rfl | rfl
  · have a := h2 100 rfl
    simp [spiritualLevels.student] at h1 a
    simp [spiritualLevels, calculateSpiritualLevel.loop, inRange, levelRecord,
      spiritualLevels.student, h1, a]
  · have a := h2 500 rfl
    simp [spiritualLevels.learner] at h1 a
    have b : ¬ p ≤ 100 := by linarith
    simp [spiritualLevels, calculateSpiritualLevel.loop, inRange, levelRecord,
      spiritualLevels.student, spiritualLevels.learner, h1, a, b]
  · have a := h2 1000 rfl
    simp [spiritualLevels.reciter] at h1 a
    have b : ¬ p ≤ 100 := by linarith
    have c : ¬ p ≤ 500 := by linarith
    simp [spiritualLevels, calculateSpiritualLevel.loop, inRange, levelRecord,
      spiritualLevels.student, spiritualLevels.learner, spiritualLevels.reciter, h1, a, b, c]
  · have a := h2 5000 rfl
    simp [spiritualLevels.hafiz] at h1 a
    have b : ¬ p ≤ 100 := by linarith
    have c : ¬ p ≤ 500 := by linarith
    have d : ¬ p ≤ 1000 := by linarith
    simp [spiritualLevels, calculateSpiritualLevel.loop, inRange, levelRecord,
      spiritualLevels.student, spiritualLevels.learner, spiritualLevels.reciter,
      spiritualLevels.hafiz, h1, a, b, c, d]
  · have a := h2 10000 rfl
    simp [spiritualLevels.qari] at h1 a
    have b : ¬ p ≤ 100 := by linarith
    have c : ¬ p ≤ 500 := by linarith
    have d : ¬ p ≤ 1000 := by linarith
    have f : ¬ p ≤ 5000 := by linarith
    simp [spiritualLevels, calculateSpiritualLevel.loop, inRange, levelRecord,
      spiritualLevels.student, spiritualLevels.learner, spiritualLevels.reciter,
      spiritualLevels.hafiz, spiritualLevels.qari, h1, a, b, c, d, f]
  · simp [spiritualLevels.master] at h1
    have b : ¬ p ≤ 100 := by linarith
    have c : ¬ p ≤ 500 := by linarith
    have d : ¬ p ≤ 1000 := by linarith
    have f : ¬ p ≤ 5000 := by linarith
    have g : ¬ p ≤ 10000 := by linarith
    simp [spiritualLevels, calculateSpiritualLevel.loop, inRange, levelRecord,
      spiritualLevels.student, spiritualLevels.learner, spiritualLevels.reciter,
      spiritualLevels.hafiz, spiritualLevels.qari, spiritualLevels.master, h1, b, c, d, f, g]

/-- Every natural number lies in the range of some tier of the table. -/
theorem exists_tier (n : ℕ) :
    ∃ e : String × TierConfig, e ∈ spiritualLevels ∧ inRange (n : ℚ) e.2 = true := by
  have h : n ≤ 100 ∨ (101 ≤ n ∧ n ≤ 500) ∨ (501 ≤ n ∧ n ≤ 1000) ∨ (1001 ≤ n ∧ n ≤ 5000) ∨
      (5001 ≤ n ∧ n ≤ 10000) ∨ 10001 ≤ n := by omega
  rcases h with h | ⟨h, h'⟩ | ⟨h, h'⟩ | ⟨h, h'⟩ | ⟨h, h'⟩ | h
  · refine ⟨("student", spiritualLevels.student), by simp [spiritualLevels], ?_⟩
    rw [inRange_iff]; simp [spiritualLevels.student]; exact_mod_cast h
  · refine ⟨("learner", spiritualLevels.learner), by simp [spiritualLevels], ?_⟩
    rw [inRange_iff]; simp [spiritualLevels.learner]
    exact ⟨by exact_mod_cast h, by exact_mod_cast h'⟩
  · refine ⟨("reciter", spiritualLevels.reciter), by simp [spiritualLevels], ?_⟩
    rw [inRange_iff]; simp [spiritualLevels.reciter]
    exact ⟨by exact_mod_cast h, by exact_mod_cast h'⟩
  · refine ⟨("hafiz", spiritualLevels.hafiz), by simp [spiritualLevels], ?_⟩
    rw [inRange_iff]; simp [spiritualLevels.hafiz]
    exact ⟨by exact_mod_cast h, by exact_mod_cast h'⟩
  · refine ⟨("qari", spiritualLevels.qari), by simp [spiritualLevels], ?_⟩
    rw [inRange_iff]; simp [spiritualLevels.qari]
    exact ⟨by exact_mod_cast h, by exact_mod_cast h'⟩
  · refine ⟨("master", spiritualLevels.master), by simp [spiritualLevels], ?_⟩
    rw [inRange_iff]; simp [spiritualLevels.master]
    exact_mod_cast h

/-- Two tiers of the table whose ranges contain the same number are the same
tier. -/
theorem tier_unique (p : ℚ) (e e' : String × TierConfig)
    (he : e ∈ spiritualLevels) (he' : e' ∈ spiritualLevels)
    (hr : inRange p e.2 = true) (hr' : inRange p e'.2 = true) : e' = e := by
  have h1 := calculateSpiritualLevel_of_mem p e he hr
  have h2 := calculateSpiritualLevel_of_mem p e' he' hr'
  rw [h1] at h2
  rw [mem_spiritualLevels] at he he'
  rcases he with rfl | rfl | rfl | rfl | rfl | rfl <;>
    rcases he' with rfl | rfl | rfl | rfl | rfl | rfl <;>
    first
      | rfl
      | (exfalso; revert h2; simp [levelRecord])

theorem calculateSpiritualLevel_eq (p : ℚ) (e : String × TierConfig)
    (he : e ∈ spiritualLevels) (hr : inRange p e.2 = true) :
    calculateSpiritualLevel p = levelRecord e p := by
  simp [calculateSpiritualLevel, calculateSpiritualLevel_of_mem p e he hr]

/-- The next level of a record of the table: `null` for the last key, the
following entry otherwise. -/
theorem getNextLevel_levelRecord (p : ℚ) :
    getNextLevel (levelRecord ("student", spiritualLevels.student) p) =
      some ⟨"learner", "Learner", "📚", 101, some (101 - p)⟩ ∧
    getNextLevel (levelRecord ("learner", spiritualLevels.learner) p) =
      some ⟨"reciter", "Reciter", "🎵", 501, some (501 - p)⟩ ∧
    getNextLevel (levelRecord ("reciter", spiritualLevels.reciter) p) =
      some ⟨"hafiz", "Hafiz", "📖", 1001, some (1001 - p)⟩ ∧
    getNextLevel (levelRecord ("hafiz", spiritualLevels.hafiz) p) =
      some ⟨"qari", "Qari", "🎙️", 5001, some (5001 - p)⟩ ∧
    getNextLevel (levelRecord ("qari", spiritualLevels.qari) p) =
      some ⟨"master", "Master", "👑", 10001, some (10001 - p)⟩ ∧
    getNextLevel (levelRecord ("master", spiritualLevels.master) p) = none := by
  refine ⟨?_, ?_, ?_, ?_, ?_, ?_⟩ <;>
    simp [getNextLevel, levelRecord, indexOf, spiritualLevels, LevelValue.level,
      LevelValue.points, List.indexOf_cons, spiritualLevels.student, spiritualLevels.learner,
      spiritualLevels.reciter, spiritualLevels.hafiz, spiritualLevels.qari,
      spiritualLevels.master]

/-! ## Level engine: the claims -/

/-- C1: the tier table partitions the non-negative integers.  Every natural
number lies in the range of exactly one entry of `spiritualLevels`; the first
entry starts at 0; each entry starts one above the maximum of the entry before
it; the last entry has no upper bound; 100 lies only in Student and 101 only
in Learner. -/
theorem tier_table_partition :
    (∀ n : ℕ, ∃! e : String × TierConfig, e ∈ spiritualLevels ∧ inRange (n : ℚ) e.2 = true) ∧
    spiritualLevels.head?.map (fun e => e.2.min) = some 0 ∧
    List.Chain' (fun a b : String × TierConfig => a.2.max.map (fun m => m + 1) = some b.2.min)
      spiritualLevels ∧
    spiritualLevels.getLast?.map (fun e => e.2.max) = some none ∧
    (∀ e : String × TierConfig, e ∈ spiritualLevels →
      (inRange 100 e.2 = true ↔ e = ("student", spiritualLevels.student))) ∧
    (∀ e : String × TierConfig, e ∈ spiritualLevels →
      (inRange 101 e.2 = true ↔ e = ("learner", spiritualLevels.learner))) := by
  refine ⟨?_, ?_, ?_, ?_, ?_, ?_⟩
  · intro n
    obtain ⟨e, he, hr⟩ := exists_tier n
    exact ⟨e, ⟨he, hr⟩, fun e' h => tier_unique (n : ℚ) e e' he h.1 hr h.2⟩
  · simp [spiritualLevels, spiritualLevels.student]
  · simp [spiritualLevels, spiritualLevels.student, spiritualLevels.learner,
      spiritualLevels.reciter, spiritualLevels.hafiz, spiritualLevels.qari,
      spiritualLevels.master]
  · simp [spiritualLevels, spiritualLevels.master]
  · intro e he
    have hs : inRange 100 spiritualLevels.student = true := by
      rw [inRange_iff]; simp [spiritualLevels.student]
    constructor
    · intro h
      exact tier_unique 100 ("student", spiritualLevels.student) e
        (by simp [spiritualLevels]) he hs h
    · rintro rfl
      exact hs
  · intro e he
    have hs : inRange 101 spiritualLevels.learner = true := by
      rw [inRange_iff]; simp [spiritualLevels.learner]
    constructor
    · intro h
      exact tier_unique 101 ("learner", spiritualLevels.learner) e
        (by simp [spiritualLevels]) he hs h
    · rintro rfl
      exact hs

/-- C2: for every natural number `n`, `calculateSpiritualLevel n` is the level
record of the one tier whose range contains `n`: the loop returns (the fallback
after it is not reached), the record carries that tier's key, title and emoji,
and its `points` field is `n`. -/
theorem calculateSpiritualLevel_spec (n : ℕ) :
    ∃ e : String × TierConfig,
      e ∈ spiritualLevels ∧ inRange (n : ℚ) e.2 = true ∧
      (∀ e' : String × TierConfig,
        e' ∈ spiritualLevels ∧ inRange (n : ℚ) e'.2 = true → e' = e) ∧
      calculateSpiritualLevel.loop (n : ℚ) spiritualLevels =
        some (.record e.1 e.2.title e.2.emoji (n : ℚ) (rangeString e.2)) ∧
      calculateSpiritualLevel (n : ℚ) =
        .record e.1 e.2.title e.2.emoji (n : ℚ) (rangeString e.2) ∧
      (calculateSpiritualLevel (n : ℚ)).level = some e.1 ∧
      (calculateSpiritualLevel (n : ℚ)).title = e.2.title ∧
      (calculateSpiritualLevel (n : ℚ)).points = some (n : ℚ) := by
  obtain ⟨e, he, hr⟩ := exists_tier n
  have h := calculateSpiritualLevel_eq (n : ℚ) e he hr
  refine ⟨e, he, hr, fun e' h' => tier_unique (n : ℚ) e e' he h'.1 hr h'.2,
    calculateSpiritualLevel_of_mem (n : ℚ) e he hr, h, ?_, ?_, ?_⟩ <;>
    simp [h, levelRecord, LevelValue.level, LevelValue.title, LevelValue.points]

/-- C3: for every natural number `n`, `getNextLevel (calculateSpiritualLevel n)`
is `null` exactly when `n` is in the Master tier, that is when `10001 ≤ n`;
below that it is the table entry that follows the tier containing `n`. -/
theorem getNextLevel_spec (n : ℕ) :
    (getNextLevel (calculateSpiritualLevel (n : ℚ)) = none ↔ 10001 ≤ n) ∧
    (inRange (n : ℚ) spiritualLevels.master = true ↔ 10001 ≤ n) ∧
    (10001 ≤ n ∨
      ∃ (i : ℕ) (current next : String × TierConfig),
        spiritualLevels.get? i = some current ∧
        spiritualLevels.get? (i + 1) = some next ∧
        inRange (n : ℚ) current.2 = true ∧
        getNextLevel (calculateSpiritualLevel (n : ℚ)) =
          some { level := next.1
                 title := next.2.title
                 emoji := next.2.emoji
                 requirement := next.2.min
                 pointsNeeded := some ((next.2.min : ℚ) - (n : ℚ)) }) := by
  have hm : inRange (n : ℚ) spiritualLevels.master = true ↔ 10001 ≤ n := by
    rw [inRange_iff]; simp [spiritualLevels.master]
  obtain ⟨e, he, hr⟩ := exists_tier n
  have h := calculateSpiritualLevel_eq (n : ℚ) e he hr
  obtain ⟨g1, g2, g3, g4, g5, g6⟩ := getNextLevel_levelRecord (n : ℚ)
  have hlt : e ≠ ("master", spiritualLevels.master) → ¬ 10001 ≤ n := by
    intro hne h10
    exact hne (tier_unique (n : ℚ) e _ he (by simp [spiritualLevels]) hr (hm.2 h10)).symm
  rw [mem_spiritualLevels] at he
  rcases he with rfl | rfl | rfl | rfl | rfl | rfl
  · have := hlt (by simp)
    refine ⟨by simp [h, g1, this], hm, Or.inr ⟨0, _, ("learner", spiritualLevels.learner),
      by simp [spiritualLevels], by simp [spiritualLevels], hr, ?_⟩⟩
    simp [h, g1, spiritualLevels.learner]
  · have := hlt (by simp)
    refine ⟨by simp [h, g2, this], hm, Or.inr ⟨1, _, ("reciter", spiritualLevels.reciter),
      by simp [spiritualLevels], by simp [spiritualLevels], hr, ?_⟩⟩
    simp [h, g2, spiritualLevels.reciter]
  · have := hlt (by simp)
    refine ⟨by simp [h, g3, this], hm, Or.inr ⟨2, _, ("hafiz", spiritualLevels.hafiz),
      by simp [spiritualLevels], by simp [spiritualLevels], hr, ?_⟩⟩
    simp [h, g3, spiritualLevels.hafiz]
  · have := hlt (by simp)
    refine ⟨by simp [h, g4, this], hm, Or.inr ⟨3, _, ("qari", spiritualLevels.qari),
      by simp [spiritualLevels], by simp [spiritualLevels], hr, ?_⟩⟩
    simp [h, g4, spiritualLevels.qari]
  · have := hlt (by simp)
    refine ⟨by simp [h, g5, this], hm, Or.inr ⟨4, _, ("master", spiritualLevels.master),
      by simp [spiritualLevels], by simp [spiritualLevels], hr, ?_⟩⟩
    simp [h, g5, spiritualLevels.master]
  · have h10 := hm.1 hr
    exact ⟨by simp [h, g6, h10], hm, Or.inl h10⟩

/-! ## Pipeline: lemmas -/

theorem Eff.bind_eq {α β : Type} (m : Eff α) (f : α → Eff β) : (m >>= f) = Eff.bind m f := rfl

theorem Eff.pure_eq {α : Type} (a : α) : (Pure.pure a : Eff α) = Eff.pure a := rfl

/-- The outcome of `updateSpiritualProgress` in closed form: the progress read,
the level-up notification when the level key changes, then the write. -/
theorem updateSpiritualProgress_run (components : Components) (userId : String)
    (earnedPoints : ℚ) (s : ProgressStore) :
    updateSpiritualProgress components userId earnedPoints s =
      (if (calculateSpiritualLevel (s userId + earnedPoints)).level ≠
          (calculateSpiritualLevel (s userId)).level then
        match components.sendLevelUpNotification
            ⟨userId, calculateSpiritualLevel (s userId),
              calculateSpiritualLevel (s userId + earnedPoints), earnedPoints⟩ with
        | .ok _ =>
          ⟨.ok (calculateSpiritualLevel (s userId + earnedPoints)),
            s.write userId (s userId + earnedPoints),
            [.getProgress userId,
             .sendLevelUpNotification ⟨userId, calculateSpiritualLevel (s userId),
               calculateSpiritualLevel (s userId + earnedPoints), earnedPoints⟩,
             .updateProgress userId ⟨earnedPoints, s userId + earnedPoints,
               calculateSpiritualLevel (s userId + earnedPoints)⟩]⟩
        | .error e =>
          ⟨.error e, s,
            [.getProgress userId,
             .sendLevelUpNotification ⟨userId, calculateSpiritualLevel (s userId),
               calculateSpiritualLevel (s userId + earnedPoints), earnedPoints⟩]⟩
      else
        ⟨.ok (calculateSpiritualLevel (s userId + earnedPoints)),
          s.write userId (s userId + earnedPoints),
          [.getProgress userId,
           .updateProgress userId ⟨earnedPoints, s userId + earnedPoints,
             calculateSpiritualLevel (s userId + earnedPoints)⟩]⟩) := by
  by_cases h : (calculateSpiritualLevel (s userId + earnedPoints)).level =
      (calculateSpiritualLevel (s userId)).level
  · simp [updateSpiritualProgress, getSpiritualProgress, h, Eff.bind_eq, Eff.pure_eq, Eff.bind,
      Eff.pure, Eff.call, progressAnalyzer.getProgress, progressAnalyzer.updateProgress,
      Outcome.prepend]
  · cases hn : components.sendLevelUpNotification
        ⟨userId, calculateSpiritualLevel (s userId),
          calculateSpiritualLevel (s userId + earnedPoints), earnedPoints⟩ <;>
      simp [updateSpiritualProgress, getSpiritualProgress, h, hn, Eff.bind_eq, Eff.pure_eq,
        Eff.bind, Eff.pure, Eff.call, progressAnalyzer.getProgress,
        progressAnalyzer.updateProgress, Outcome.prepend]

theorem calculatorRequests_append (xs ys : List Call) :
    calculatorRequests (xs ++ ys) = calculatorRequests xs ++ calculatorRequests ys := by
  induction xs with
  | nil => rfl
  | cons x xs ih => cases x <;> simp [calculatorRequests, ih]

theorem calculatorRequests_updateSpiritualProgress (components : Components) (userId : String)
    (earnedPoints : ℚ) (s : ProgressStore) :
    calculatorRequests (updateSpiritualProgress components userId earnedPoints s).calls = [] := by
  rw [updateSpiritualProgress_run]
  split_ifs with h
  · cases hn : components.sendLevelUpNotification
        ⟨userId, calculateSpiritualLevel (s userId),
          calculateSpiritualLevel (s userId + earnedPoints), earnedPoints⟩ <;>
      simp [calculatorRequests]
  · simp [calculatorRequests]

theorem Eff.tryCatch_throw {α : Type} (body : Eff α) :
    Eff.tryCatch body (fun error => Eff.throw error) = body := by
  funext s
  unfold Eff.tryCatch
  rcases hb : body s with ⟨r, s1, cs⟩
  cases r <;> simp [Eff.throw, Outcome.prepend]

theorem Eff.bind_calls {α β : Type} (m : Eff α) (f : α → Eff β) (s : ProgressStore) :
    (m.bind f s).calls =
      (m s).calls ++
        (match (m s).result with
         | .ok a => (f a (m s).store).calls
         | .error _ => []) := by
  unfold Eff.bind
  rcases hm : m s with ⟨r, s1, cs⟩
  cases r <;> simp [Outcome.prepend]

theorem Eff.bind_result {α β : Type} (m : Eff α) (f : α → Eff β) (s : ProgressStore) :
    (m.bind f s).result =
      (match (m s).result with
       | .ok a => (f a (m s).store).result
       | .error e => .error e) := by
  unfold Eff.bind
  rcases hm : m s with ⟨r, s1, cs⟩
  cases r <;> simp [Outcome.prepend]

theorem Eff.bind_store {α β : Type} (m : Eff α) (f : α → Eff β) (s : ProgressStore) :
    (m.bind f s).store =
      (match (m s).result with
       | .ok a => (f a (m s).store).store
       | .error _ => (m s).store) := by
  unfold Eff.bind
  rcases hm : m s with ⟨r, s1, cs⟩
  cases r <;> simp [Outcome.prepend]

theorem Eff.call_calls {α : Type} (c : Call) (r : Except Error α) (s : ProgressStore) :
    (Eff.call c r s).calls = [c] := rfl

theorem Eff.call_result {α : Type} (c : Call) (r : Except Error α) (s : ProgressStore) :
    (Eff.call c r s).result = r := rfl

theorem Eff.call_store {α : Type} (c : Call) (r : Except Error α) (s : ProgressStore) :
    (Eff.call c r s).store = s := rfl

theorem Eff.pure_calls {α : Type} (a : α) (s : ProgressStore) : (Eff.pure a s).calls = [] := rfl

theorem Eff.pure_result {α : Type} (a : α) (s : ProgressStore) :
    (Eff.pure a s).result = .ok a := rfl

theorem Eff.pure_store {α : Type} (a : α) (s : ProgressStore) : (Eff.pure a s).store = s := rfl

theorem escalation_calls {α : Type} (b : Bool) (c : Call) (r : Except Error α)
    (s : ProgressStore) :
    ((if b = true then (Eff.call c r).bind (fun x => Eff.pure (some x)) else Eff.pure none)
      s).calls = if b = true then [c] else [] := by
  cases b <;> cases r <;> simp [Eff.bind, Eff.call, Eff.pure, Outcome.prepend]

theorem escalation_store {α : Type} (b : Bool) (c : Call) (r : Except Error α)
    (s : ProgressStore) :
    ((if b = true then (Eff.call c r).bind (fun x => Eff.pure (some x)) else Eff.pure none)
      s).store = s := by
  cases b <;> cases r <;> simp [Eff.bind, Eff.call, Eff.pure, Outcome.prepend]

theorem escalation_result {α : Type} (b : Bool) (c : Call) (r : Except Error α)
    (s : ProgressStore) :
    ((if b = true then (Eff.call c r).bind (fun x => Eff.pure (some x)) else Eff.pure none)
      s).result =
      if b = true then Except.map some r else .ok none := by
  cases b <;> cases r <;> simp [Eff.bind, Eff.call, Eff.pure, Outcome.prepend, Except.map]

/-- C5: in every run of `analyzeRecitation`, a request that reaches the points
calculator was built from the analysis `a` the analysis service returned, its
`perfectRecitation` flag is true exactly when `a.accuracy ≥ 99`, and its
`majorImprovement` flag is true exactly when `a.improvement > 10`; so accuracy
99 sets the perfect flag and 98.9 does not, improvement 10 does not set the
major flag and 10.1 does. -/
theorem perfect_and_major_flags (components : Components) (audioData : Buffer) (userId : String)
    (options : Options) (s : ProgressStore) (req : PointsRequest)
    (h : req ∈ calculatorRequests (analyzeRecitation components audioData userId options s).calls) :
    ∃ a : AiAnalysis,
      components.analyze (analyzeRequest audioData userId options) = .ok a ∧
      (req.perfectRecitation = true ↔ a.accuracy ≥ 99) ∧
      (req.majorImprovement = true ↔ a.improvement > 10) ∧
      (a.accuracy = 99 → req.perfectRecitation = true) ∧
      (a.accuracy = 989 / 10 → req.perfectRecitation = false) ∧
      (a.improvement = 10 → req.majorImprovement = false) ∧
      (a.improvement = 101 / 10 → req.majorImprovement = true) := by
  unfold analyzeRecitation at h
  rw [Eff.tryCatch_throw] at h
  simp only [Eff.bind_eq, Eff.pure_eq, getUserConsistency, getTeachingBonus,
    Eff.bind_calls, Eff.bind_result, Eff.bind_store, Eff.call_calls, Eff.call_result,
    Eff.call_store, Eff.pure_calls, Eff.pure_result, Eff.pure_store,
    escalation_calls, escalation_store, escalation_result] at h
  have hu := calculatorRequests_updateSpiritualProgress components userId
  generalize updateSpiritualProgress components userId = upd at h hu
  split at h
  · rename_i a ha
    refine ⟨a, ha, ?_⟩
    have key : ∃ c t, req = pointsRequest a c t := by
      repeat' (split at h)
      all_goals
        simp [calculatorRequests, calculatorRequests_append, hu] at h
      all_goals exact ⟨_, _, h⟩
    obtain ⟨c, t, rfl⟩ := key
    refine ⟨by simp [pointsRequest], by simp [pointsRequest], ?_, ?_, ?_, ?_⟩
    · intro h99; simp [pointsRequest, h99]
    · intro h98; simp [pointsRequest, h98]; norm_num
    · intro h10; simp [pointsRequest, h10]
    · intro h10; simp [pointsRequest, h10]; norm_num
  · simp [calculatorRequests] at h

/-- Witness for C5: a run with accuracy 99 and improvement 10 reaches the
calculator. -/
theorem perfect_and_major_flags_witness :
    pointsRequest sampleAnalysis (4 / 5) 1 ∈ calculatorRequests
      (analyzeRecitation (sampleComponents sampleAnalysis 5) [] "u" sampleOptions
        (sampleStore 100)).calls ∧
    ∃ a : AiAnalysis,
      (sampleComponents sampleAnalysis 5).analyze (analyzeRequest [] "u" sampleOptions) = .ok a ∧
      ((pointsRequest sampleAnalysis (4 / 5) 1).perfectRecitation = true ↔ a.accuracy ≥ 99) ∧
      ((pointsRequest sampleAnalysis (4 / 5) 1).majorImprovement = true ↔ a.improvement > 10) ∧
      (a.accuracy = 99 → (pointsRequest sampleAnalysis (4 / 5) 1).perfectRecitation = true) ∧
      (a.accuracy = 989 / 10 →
        (pointsRequest sampleAnalysis (4 / 5) 1).perfectRecitation = false) ∧
      (a.improvement = 10 → (pointsRequest sampleAnalysis (4 / 5) 1).majorImprovement = false) ∧
      (a.improvement = 101 / 10 →
        (pointsRequest sampleAnalysis (4 / 5) 1).majorImprovement = true) :=
  have hmem : pointsRequest sampleAnalysis (4 / 5) 1 ∈ calculatorRequests
      (analyzeRecitation (sampleComponents sampleAnalysis 5) [] "u" sampleOptions
        (sampleStore 100)).calls := by
    simp [analyzeRecitation, Eff.tryCatch_throw, Eff.bind_eq, Eff.pure_eq, getUserConsistency,
      getTeachingBonus, Eff.bind_calls, Eff.bind_result, Eff.bind_store, Eff.call_calls,
      Eff.call_result, Eff.call_store, Eff.pure_calls, Eff.pure_result, Eff.pure_store,
      escalation_calls, escalation_store, escalation_result, sampleComponents,
      calculatorRequests]
  ⟨hmem, perfect_and_major_flags (sampleComponents sampleAnalysis 5) [] "u" sampleOptions
    (sampleStore 100) (pointsRequest sampleAnalysis (4 / 5) 1) hmem⟩

theorem key_injective (e e' : String × TierConfig) (he : e ∈ spiritualLevels)
    (he' : e' ∈ spiritualLevels) (hk : e.1 = e'.1) : e = e' := by
  rw [mem_spiritualLevels] at he he'
  rcases he with rfl | rfl | rfl | rfl | rfl | rfl <;>
    rcases he' with rfl | rfl | rfl | rfl | rfl | rfl <;>
    first
      | rfl
      | (exfalso; revert hk; decide)

/-- C4: when the stored total is the natural number `n` and the award is the
natural number `k`, `updateSpiritualProgress` sends exactly one level-up
notification if the tier of `n + k` differs from the tier of `n` (however far
apart the two tiers are) and none if it is the same tier; the notification
carries the record of the final tier as `newLevel`, and that record is the
level returned. -/
theorem level_up_once (components : Components) (store : ProgressStore) (userId : String)
    (n k : ℕ) (hn : store userId = (n : ℚ)) :
    ∃ told tnew : String × TierConfig,
      told ∈ spiritualLevels ∧ tnew ∈ spiritualLevels ∧
      inRange (n : ℚ) told.2 = true ∧ inRange ((n : ℚ) + (k : ℚ)) tnew.2 = true ∧
      levelUpNotifications (updateSpiritualProgress components userId (k : ℚ) store).calls =
        (if told = tnew then []
         else [{ userId := userId
                 oldLevel := .record told.1 told.2.title told.2.emoji (n : ℚ) (rangeString told.2)
                 newLevel := .record tnew.1 tnew.2.title tnew.2.emoji ((n : ℚ) + (k : ℚ))
                   (rangeString tnew.2)
                 earnedPoints := (k : ℚ) }]) ∧
      (∀ level : LevelValue,
        (updateSpiritualProgress components userId (k : ℚ) store).result = .ok level →
        level = .record tnew.1 tnew.2.title tnew.2.emoji ((n : ℚ) + (k : ℚ))
          (rangeString tnew.2)) ∧
      ((told = tnew ∨
          components.sendLevelUpNotification
            { userId := userId
              oldLevel := .record told.1 told.2.title told.2.emoji (n : ℚ) (rangeString told.2)
              newLevel := .record tnew.1 tnew.2.title tnew.2.emoji ((n : ℚ) + (k : ℚ))
                (rangeString tnew.2)
              earnedPoints := (k : ℚ) } = .ok ()) →
        (updateSpiritualProgress components userId (k : ℚ) store).result =
          .ok (.record tnew.1 tnew.2.title tnew.2.emoji ((n : ℚ) + (k : ℚ))
            (rangeString tnew.2))) := by
  obtain ⟨told, hto, hro⟩ := exists_tier n
  obtain ⟨tnew, htn, hrn⟩ := exists_tier (n + k)
  have hrn' : inRange ((n : ℚ) + (k : ℚ)) tnew.2 = true := by
    rw [← Nat.cast_add]; exact hrn
  have hold := calculateSpiritualLevel_eq (n : ℚ) told hto hro
  have hnew := calculateSpiritualLevel_eq ((n : ℚ) + (k : ℚ)) tnew htn hrn'
  have hkey : tnew.1 = told.1 ↔ told = tnew :=
    ⟨fun h => key_injective told tnew hto htn h.symm, fun h => by rw [h]⟩
  refine ⟨told, tnew, hto, htn, hro, hrn', ?_⟩
  rw [updateSpiritualProgress_run, hn, hold, hnew]
  simp only [levelRecord, LevelValue.level, ne_eq, Option.some.injEq, hkey]
  by_cases heq : told = tnew
  · simp [heq, levelUpNotifications]
  · simp only [heq, not_false_eq_true, if_true, if_false, false_or]
    cases hs : components.sendLevelUpNotification
        ⟨userId, .record told.1 told.2.title told.2.emoji (n : ℚ) (rangeString told.2),
          .record tnew.1 tnew.2.title tnew.2.emoji ((n : ℚ) + (k : ℚ)) (rangeString tnew.2),
          (k : ℚ)⟩ <;>
      simp [levelUpNotifications]

/-- Witness for C4: the stored total is 100 (Student) and the award is 1; the
run sends one level-up notification, from Student to Learner, and returns the
Learner record for 101 points. -/
theorem level_up_once_witness :
    sampleStore 100 "u" = ((100 : ℕ) : ℚ) ∧
    levelUpNotifications (updateSpiritualProgress (sampleComponents sampleAnalysis 1) "u"
        ((1 : ℕ) : ℚ) (sampleStore 100)).calls =
      [{ userId := "u"
         oldLevel := .record "student" "Student" "🌱" ((100 : ℕ) : ℚ)
           (rangeString spiritualLevels.student)
         newLevel := .record "learner" "Learner" "📚" (((100 : ℕ) : ℚ) + ((1 : ℕ) : ℚ))
           (rangeString spiritualLevels.learner)
         earnedPoints := ((1 : ℕ) : ℚ) }] ∧
    (updateSpiritualProgress (sampleComponents sampleAnalysis 1) "u"
        ((1 : ℕ) : ℚ) (sampleStore 100)).result =
      .ok (.record "learner" "Learner" "📚" (((100 : ℕ) : ℚ) + ((1 : ℕ) : ℚ))
        (rangeString spiritualLevels.learner)) := by
  have hstore : sampleStore 100 "u" = ((100 : ℕ) : ℚ) := by simp [sampleStore]
  obtain ⟨told, tnew, hto, htn, hro, hrn, hcalls, -, hres⟩ :=
    level_up_once (sampleComponents sampleAnalysis 1) (sampleStore 100) "u" 100 1 hstore
  have h1 : told = ("student", spiritualLevels.student) :=
    tier_unique ((100 : ℕ) : ℚ) _ told (by simp [spiritualLevels]) hto
      (by rw [inRange_iff]; simp [spiritualLevels.student]) hro
  have h2 : tnew = ("learner", spiritualLevels.learner) :=
    tier_unique (((100 : ℕ) : ℚ) + ((1 : ℕ) : ℚ)) _ tnew (by simp [spiritualLevels]) htn
      (by rw [inRange_iff]; simp [spiritualLevels.learner]; norm_num) hrn
  subst h1 h2
  refine ⟨hstore, ?_, ?_⟩
  · rw [hcalls]
    simp [spiritualLevels.student, spiritualLevels.learner]
  · have := hres (Or.inr (by simp [sampleComponents]))
    rw [this]
    simp [spiritualLevels.learner]

/-- C10, as stated, fails: with 10 cumulative points and `earnedPoints = -5`,
`updateSpiritualProgress` runs to the end and writes `newTotalPoints = 5`,
which is less than the previous total. -/
theorem newTotalPoints_can_decrease :
    ∃ update : ProgressUpdate,
      Call.updateProgress "u" update ∈
        (updateSpiritualProgress (sampleComponents sampleAnalysis 0) "u" (-5)
          (sampleStore 10)).calls ∧
      update.newTotalPoints = 5 ∧
      update.newTotalPoints < sampleStore 10 "u" ∧
      (updateSpiritualProgress (sampleComponents sampleAnalysis 0) "u" (-5)
        (sampleStore 10)).store "u" = 5 := by
  refine ⟨⟨-5, 5, calculateSpiritualLevel 5⟩, ?_, rfl, by simp [sampleStore]; norm_num, ?_⟩
  · rw [updateSpiritualProgress_run]
    have h5 : sampleStore 10 "u" + (-5 : ℚ) = 5 := by simp [sampleStore]; norm_num
    split_ifs <;> simp [sampleComponents, h5]
  · rw [updateSpiritualProgress_run]
    have h5 : sampleStore 10 "u" + (-5 : ℚ) = 5 := by simp [sampleStore]; norm_num
    split_ifs <;> simp [sampleComponents, h5, ProgressStore.write]

/-- C10, amended: when the stored total and `earnedPoints` are safe integers
with a safe-integer sum (the range in which the addition of line 265 is
exact), the `newTotalPoints` that `updateSpiritualProgress` writes is their
sum; it is at least the previous total exactly when `earnedPoints ≥ 0`, it is
below the previous total when `earnedPoints` is negative (a value the method
does not reject), and it becomes the stored total. -/
theorem newTotalPoints_eq (components : Components) (userId : String) (total earned : ℤ)
    (store : ProgressStore) (update : ProgressUpdate)
    (htotal : store userId = (total : ℚ))
    (_hs1 : isSafeInteger total) (_hs2 : isSafeInteger earned)
    (_hs3 : isSafeInteger (total + earned))
    (h : Call.updateProgress userId update ∈
      (updateSpiritualProgress components userId (earned : ℚ) store).calls) :
    update.newTotalPoints = ((total + earned : ℤ) : ℚ) ∧
    (store userId ≤ update.newTotalPoints ↔ 0 ≤ earned) ∧
    (update.newTotalPoints < store userId ↔ earned < 0) ∧
    (updateSpiritualProgress components userId (earned : ℚ) store).store userId =
      update.newTotalPoints := by
  have key : update.newTotalPoints = store userId + (earned : ℚ) ∧
      (updateSpiritualProgress components userId (earned : ℚ) store).store userId =
        update.newTotalPoints := by
    rw [updateSpiritualProgress_run] at h ⊢
    split_ifs at h ⊢ with hc
    · cases hs : components.sendLevelUpNotification
          ⟨userId, calculateSpiritualLevel (store userId),
            calculateSpiritualLevel (store userId + (earned : ℚ)), (earned : ℚ)⟩ <;>
        simp only [hs] at h ⊢ <;> simp at h
      subst h
      simp [ProgressStore.write]
    · simp at h
      subst h
      simp [ProgressStore.write]
  obtain ⟨k1, k2⟩ := key
  rw [htotal] at k1
  refine ⟨by rw [k1]; push_cast; rfl, ?_, ?_, k2⟩
  · rw [k1, htotal]
    constructor
    · intro hh
      have : (0 : ℚ) ≤ (earned : ℚ) := by linarith
      exact_mod_cast this
    · intro hh
      have : (0 : ℚ) ≤ (earned : ℚ) := by exact_mod_cast hh
      linarith
  · rw [k1, htotal]
    constructor
    · intro hh
      have : (earned : ℚ) < 0 := by linarith
      exact_mod_cast this
    · intro hh
      have : (earned : ℚ) < 0 := by exact_mod_cast hh
      linarith

/-- Witness for C10 (amended): 10 cumulative points, award 5. -/
theorem newTotalPoints_eq_witness :
    Call.updateProgress "u" ⟨((5 : ℤ) : ℚ), 15, calculateSpiritualLevel 15⟩ ∈
      (updateSpiritualProgress (sampleComponents sampleAnalysis 0) "u" ((5 : ℤ) : ℚ)
        (sampleStore 10)).calls ∧
    ((15 : ℚ) = (((10 : ℤ) + (5 : ℤ) : ℤ) : ℚ) ∧
     (sampleStore 10 "u" ≤ (15 : ℚ) ↔ (0 : ℤ) ≤ 5) ∧
     ((15 : ℚ) < sampleStore 10 "u" ↔ (5 : ℤ) < 0) ∧
     (updateSpiritualProgress (sampleComponents sampleAnalysis 0) "u" ((5 : ℤ) : ℚ)
        (sampleStore 10)).store "u" = 15) :=
  have hmem : Call.updateProgress "u" ⟨((5 : ℤ) : ℚ), 15, calculateSpiritualLevel 15⟩ ∈
      (updateSpiritualProgress (sampleComponents sampleAnalysis 0) "u" ((5 : ℤ) : ℚ)
        (sampleStore 10)).calls := by
    rw [updateSpiritualProgress_run]
    have h15 : sampleStore 10 "u" + (5 : ℚ) = 15 := by simp [sampleStore]; norm_num
    split_ifs <;> simp [sampleComponents, h15]
  ⟨hmem, newTotalPoints_eq (sampleComponents sampleAnalysis 0) "u" 10 5 (sampleStore 10)
    ⟨((5 : ℤ) : ℚ), 15, calculateSpiritualLevel 15⟩ (by simp [sampleStore])
    (by norm_num [isSafeInteger]) (by norm_num [isSafeInteger]) (by norm_num [isSafeInteger])
    hmem⟩

/-- The run in which no collaborator throws, in closed form. -/
theorem analyzeRecitation_success (components : Components) (audioData : Buffer)
    (userId : String) (options : Options) (s : ProgressStore)
    (a : AiAnalysis) (hc : Option Correction) (att : Attestation) (c t : ℚ)
    (jp : JannahPoints) (er : EternalRecord) (lvl : LevelValue)
    (h1 : components.analyze (analyzeRequest audioData userId options) = .ok a)
    (h2 : (if (a.needsHumanReview || options.requestHumanReview) = true then
        Except.map some (components.requestCorrection (correctionRequest a userId options))
      else .ok none) = .ok hc)
    (h3 : components.record (attestationRequest a userId options) = .ok att)
    (h4 : components.getConsistencyScore userId = .ok c)
    (h5 : components.getTeachingBonus userId = .ok t)
    (h6 : components.calculate (pointsRequest a c t) = .ok jp)
    (h7 : components.store ⟨a, att, jp, hc, "200+ years", userId⟩ = .ok er)
    (h8 : (updateSpiritualProgress components userId jp.earned s).result = .ok lvl)
    (h9 : components.sendProgressUpdate ⟨userId, jp, lvl, a.suggestions⟩ = .ok ()) :
    (analyzeRecitation components audioData userId options s).result =
      .ok ⟨true, a, hc, att, jp, er, lvl, "Every letter counts for Jannah"⟩ ∧
    (analyzeRecitation components audioData userId options s).store =
      (updateSpiritualProgress components userId jp.earned s).store ∧
    (analyzeRecitation components audioData userId options s).calls =
      [.analyze (analyzeRequest audioData userId options)] ++
      ((if (a.needsHumanReview || options.requestHumanReview) = true then
          [.requestCorrection (correctionRequest a userId options)] else []) ++
       ([.record (attestationRequest a userId options)] ++
        ([.getConsistencyScore userId] ++
         ([.getTeachingBonus userId] ++
          ([.calculate (pointsRequest a c t)] ++
           ([.store ⟨a, att, jp, hc, "200+ years", userId⟩] ++
            ((updateSpiritualProgress components userId jp.earned s).calls ++
             [.sendProgressUpdate ⟨userId, jp, lvl, a.suggestions⟩]))))))) := by
  unfold analyzeRecitation
  rw [Eff.tryCatch_throw]
  simp only [Eff.bind_eq, Eff.pure_eq, getUserConsistency, getTeachingBonus,
    Eff.bind_calls, Eff.bind_result, Eff.bind_store, Eff.call_calls, Eff.call_result,
    Eff.call_store, Eff.pure_calls, Eff.pure_result, Eff.pure_store,
    escalation_calls, escalation_store, escalation_result, h1, h2, h3, h4, h5, h6, h7, h8, h9,
    List.append_nil, and_self]

theorem correctionRequests_append (xs ys : List Call) :
    correctionRequests (xs ++ ys) = correctionRequests xs ++ correctionRequests ys := by
  induction xs with
  | nil => rfl
  | cons x xs ih => cases x <;> simp [correctionRequests, ih]

theorem attestationRequests_append (xs ys : List Call) :
    attestationRequests (xs ++ ys) = attestationRequests xs ++ attestationRequests ys := by
  induction xs with
  | nil => rfl
  | cons x xs ih => cases x <;> simp [attestationRequests, ih]

theorem progressNotifications_append (xs ys : List Call) :
    progressNotifications (xs ++ ys) = progressNotifications xs ++ progressNotifications ys := by
  induction xs with
  | nil => rfl
  | cons x xs ih => cases x <;> simp [progressNotifications, ih]

theorem progressUpdates_append (xs ys : List Call) :
    progressUpdates (xs ++ ys) = progressUpdates xs ++ progressUpdates ys := by
  induction xs with
  | nil => rfl
  | cons x xs ih => cases x <;> simp [progressUpdates, ih]

/-- The calls of `updateSpiritualProgress` go to the progress store and to the
level-up notification only. -/
theorem updateSpiritualProgress_observations (components : Components) (userId : String)
    (earnedPoints : ℚ) (s : ProgressStore) :
    correctionRequests (updateSpiritualProgress components userId earnedPoints s).calls = [] ∧
    attestationRequests (updateSpiritualProgress components userId earnedPoints s).calls = [] ∧
    progressNotifications (updateSpiritualProgress components userId earnedPoints s).calls
      = [] := by
  rw [updateSpiritualProgress_run]
  split_ifs with h
  · cases hn : components.sendLevelUpNotification
        ⟨userId, calculateSpiritualLevel (s userId),
          calculateSpiritualLevel (s userId + earnedPoints), earnedPoints⟩ <;>
      simp [correctionRequests, attestationRequests, progressNotifications]
  · simp [correctionRequests, attestationRequests, progressNotifications]

/-- When the level-up notification does not throw, `updateSpiritualProgress`
resolves with the level of the new total and writes the new total once. -/
theorem updateSpiritualProgress_ok (components : Components) (userId : String)
    (earnedPoints : ℚ) (s : ProgressStore)
    (hn : ∀ note, components.sendLevelUpNotification note = .ok ()) :
    (updateSpiritualProgress components userId earnedPoints s).result =
      .ok (calculateSpiritualLevel (s userId + earnedPoints)) ∧
    (updateSpiritualProgress components userId earnedPoints s).store =
      s.write userId (s userId + earnedPoints) ∧
    progressUpdates (updateSpiritualProgress components userId earnedPoints s).calls =
      [(userId, ⟨earnedPoints, s userId + earnedPoints,
        calculateSpiritualLevel (s userId + earnedPoints)⟩)] := by
  rw [updateSpiritualProgress_run]
  split_ifs with h
  · simp [hn, progressUpdates]
  · simp [progressUpdates]

/-- The run of `analyzeRecitation` when no collaborator throws: it resolves,
the progress store holds the previous total plus the award, and the log has one
attestation attempt, one calculator request, one progress write and one
progress notification. -/
theorem analyzeRecitation_allSucceed (components : Components)
    (hall : components.AllSucceed) (audioData : Buffer) (userId : String) (options : Options)
    (s : ProgressStore) :
    ∃ (a : AiAnalysis) (hc : Option Correction) (att : Attestation) (c t : ℚ)
      (jp : JannahPoints) (er : EternalRecord),
      components.analyze (analyzeRequest audioData userId options) = .ok a ∧
      components.getConsistencyScore userId = .ok c ∧
      components.getTeachingBonus userId = .ok t ∧
      components.calculate (pointsRequest a c t) = .ok jp ∧
      (analyzeRecitation components audioData userId options s).result =
        .ok ⟨true, a, hc, att, jp, er, calculateSpiritualLevel (s userId + jp.earned),
          "Every letter counts for Jannah"⟩ ∧
      (analyzeRecitation components audioData userId options s).store =
        s.write userId (s userId + jp.earned) ∧
      attestationRequests (analyzeRecitation components audioData userId options s).calls =
        [attestationRequest a userId options] ∧
      calculatorRequests (analyzeRecitation components audioData userId options s).calls =
        [pointsRequest a c t] ∧
      progressUpdates (analyzeRecitation components audioData userId options s).calls =
        [(userId, ⟨jp.earned, s userId + jp.earned,
          calculateSpiritualLevel (s userId + jp.earned)⟩)] ∧
      progressNotifications (analyzeRecitation components audioData userId options s).calls =
        [⟨userId, jp, calculateSpiritualLevel (s userId + jp.earned), a.suggestions⟩] := by
  obtain ⟨ha, hcorr, hrec, hcalc, hstore, hcons, hteach, hlevel, hnote⟩ := hall
  obtain ⟨a, h1⟩ := ha (analyzeRequest audioData userId options)
  obtain ⟨cr, hcr⟩ := hcorr (correctionRequest a userId options)
  obtain ⟨att, h3⟩ := hrec (attestationRequest a userId options)
  obtain ⟨c, h4⟩ := hcons userId
  obtain ⟨t, h5⟩ := hteach userId
  obtain ⟨jp, h6⟩ := hcalc (pointsRequest a c t)
  have h2 : (if (a.needsHumanReview || options.requestHumanReview) = true then
        Except.map some (components.requestCorrection (correctionRequest a userId options))
      else .ok none) =
      .ok (if (a.needsHumanReview || options.requestHumanReview) = true then some cr
        else none) := by
    split_ifs <;> simp [hcr, Except.map]
  obtain ⟨er, h7⟩ := hstore ⟨a, att, jp,
    (if (a.needsHumanReview || options.requestHumanReview) = true then some cr else none),
    "200+ years", userId⟩
  obtain ⟨u1, u2, u3⟩ := updateSpiritualProgress_ok components userId jp.earned s hlevel
  obtain ⟨o1, o2, o3⟩ := updateSpiritualProgress_observations components userId jp.earned s
  have hcu := calculatorRequests_updateSpiritualProgress components userId jp.earned s
  obtain ⟨r1, r2, r3⟩ := analyzeRecitation_success components audioData userId options s a _
    att c t jp er _ h1 h2 h3 h4 h5 h6 h7 u1 (hnote _)
  rw [u2] at r2
  generalize (updateSpiritualProgress components userId jp.earned s).calls = ucs
    at r3 o1 o2 o3 hcu u3
  refine ⟨a, _, att, c, t, jp, er, h1, h4, h5, h6, r1, r2, ?_, ?_, ?_, ?_⟩
  · rw [r3]
    simp [attestationRequests_append, attestationRequests, o2, apply_ite attestationRequests]
  · rw [r3]
    simp [calculatorRequests_append, calculatorRequests, hcu, apply_ite calculatorRequests]
  · rw [r3]
    simp [progressUpdates_append, progressUpdates, u3, apply_ite progressUpdates]
  · rw [r3]
    simp [progressNotifications_append, progressNotifications, o3, apply_ite progressNotifications]

theorem sampleComponents_allSucceed (analysis : AiAnalysis) (earned : ℚ) :
    (sampleComponents analysis earned).AllSucceed := by
  simp [Components.AllSucceed, sampleComponents]

/-- The escalation requests of a run whose analysis resolved with `a`. -/
theorem correctionRequests_analyzeRecitation (components : Components) (audioData : Buffer)
    (userId : String) (options : Options) (s : ProgressStore) (a : AiAnalysis)
    (h1 : components.analyze (analyzeRequest audioData userId options) = .ok a) :
    correctionRequests (analyzeRecitation components audioData userId options s).calls =
      if (a.needsHumanReview || options.requestHumanReview) = true then
        [correctionRequest a userId options]
      else [] := by
  unfold analyzeRecitation
  rw [Eff.tryCatch_throw]
  simp only [Eff.bind_eq, Eff.pure_eq, getUserConsistency, getTeachingBonus,
    Eff.bind_calls, Eff.bind_result, Eff.bind_store, Eff.call_calls, Eff.call_result,
    Eff.call_store, Eff.pure_calls, Eff.pure_result, Eff.pure_store,
    escalation_calls, escalation_store, escalation_result, h1]
  have hu := fun e s => (updateSpiritualProgress_observations components userId e s).1
  generalize updateSpiritualProgress components userId = upd at hu ⊢
  repeat' split
  all_goals simp_all [correctionRequests, correctionRequests_append]

/-- The run in which the analysis resolves with `a`, the escalation (when
triggered) resolves, and `blockchainAttestation.record` throws `e`. -/
theorem analyzeRecitation_record_error (components : Components) (audioData : Buffer)
    (userId : String) (options : Options) (s : ProgressStore) (a : AiAnalysis) (e : Error)
    (h1 : components.analyze (analyzeRequest audioData userId options) = .ok a)
    (h2 : (a.needsHumanReview || options.requestHumanReview) = true →
      ∃ c, components.requestCorrection (correctionRequest a userId options) = .ok c)
    (h3 : components.record (attestationRequest a userId options) = .error e) :
    (analyzeRecitation components audioData userId options s).result = .error e ∧
    (analyzeRecitation components audioData userId options s).store = s ∧
    (analyzeRecitation components audioData userId options s).calls =
      [.analyze (analyzeRequest audioData userId options)] ++
      ((if (a.needsHumanReview || options.requestHumanReview) = true then
          [.requestCorrection (correctionRequest a userId options)] else []) ++
       [.record (attestationRequest a userId options)]) := by
  unfold analyzeRecitation
  rw [Eff.tryCatch_throw]
  simp only [Eff.bind_eq, Eff.pure_eq, getUserConsistency, getTeachingBonus,
    Eff.bind_calls, Eff.bind_result, Eff.bind_store, Eff.call_calls, Eff.call_result,
    Eff.call_store, Eff.pure_calls, Eff.pure_result, Eff.pure_store,
    escalation_calls, escalation_store, escalation_result, h1, h3]
  cases hb : (a.needsHumanReview || options.requestHumanReview)
  · simp
  · obtain ⟨c, hc⟩ := h2 hb
    simp [hc, Except.map]

/-- The observations on a log that ends with the failed attestation. -/
theorem observations_record_error (b : Bool) (creq : CorrectionRequest)
    (rreq : AttestationRequest) (areq : AnalyzeRequest) :
    calculatorRequests ([.analyze areq] ++
      ((if b = true then [.requestCorrection creq] else []) ++ [.record rreq])) = [] ∧
    progressUpdates ([.analyze areq] ++
      ((if b = true then [.requestCorrection creq] else []) ++ [.record rreq])) = [] ∧
    progressNotifications ([.analyze areq] ++
      ((if b = true then [.requestCorrection creq] else []) ++ [.record rreq])) = [] ∧
    levelUpNotifications ([.analyze areq] ++
      ((if b = true then [.requestCorrection creq] else []) ++ [.record rreq])) = [] ∧
    attestationRequests ([.analyze areq] ++
      ((if b = true then [.requestCorrection creq] else []) ++ [.record rreq])) = [rreq] := by
  cases b <;>
    simp [calculatorRequests, progressUpdates, progressNotifications, levelUpNotifications,
      attestationRequests]

/-! ## Pipeline: the claims -/

/-- C6, as stated, fails: an analysis with `needsHumanReview` false and
confidence `0.5`, below the configured floor `0.95`, submitted without a review
request, runs to the end without any call to `requestCorrection`. -/
theorem low_confidence_not_escalated :
    sampleAnalysis.needsHumanReview = false ∧
    sampleOptions.requestHumanReview = false ∧
    sampleAnalysis.confidence < aiPreAnalysis.confidence ∧
    (sampleComponents sampleAnalysis 5).analyze (analyzeRequest [] "u" sampleOptions) =
      .ok sampleAnalysis ∧
    correctionRequests
      (analyzeRecitation (sampleComponents sampleAnalysis 5) [] "u" sampleOptions
        (sampleStore 0)).calls = [] ∧
    (∃ r, (analyzeRecitation (sampleComponents sampleAnalysis 5) [] "u" sampleOptions
        (sampleStore 0)).result = .ok r) := by
  refine ⟨rfl, rfl, ?_, rfl, ?_, ?_⟩
  · simp [sampleAnalysis, aiPreAnalysis.confidence]; norm_num
  · rw [correctionRequests_analyzeRecitation _ _ _ _ _ sampleAnalysis rfl]
    simp [sampleAnalysis, sampleOptions]
  · obtain ⟨a, hc, att, c, t, jp, er, -, -, -, -, hr, -⟩ :=
      analyzeRecitation_allSucceed (sampleComponents sampleAnalysis 5)
        (sampleComponents_allSucceed sampleAnalysis 5) [] "u" sampleOptions (sampleStore 0)
    exact ⟨_, hr⟩

/-- C6, amended: given the analysis `a` returned by the analysis service,
`analyzeRecitation` calls `requestCorrection` (once, with that analysis)
exactly when `a.needsHumanReview` is true or the caller set
`requestHumanReview`; the confidence of the analysis is not consulted. -/
theorem escalation_iff (components : Components) (audioData : Buffer) (userId : String)
    (options : Options) (s : ProgressStore) (a : AiAnalysis)
    (h1 : components.analyze (analyzeRequest audioData userId options) = .ok a) :
    correctionRequests (analyzeRecitation components audioData userId options s).calls =
      if (a.needsHumanReview || options.requestHumanReview) = true then
        [correctionRequest a userId options]
      else [] :=
  correctionRequests_analyzeRecitation components audioData userId options s a h1

/-- Witness for C6 (amended): the analysis asks for review; one escalation
request is made. -/
theorem escalation_iff_witness :
    (sampleComponents { sampleAnalysis with needsHumanReview := true } 5).analyze
        (analyzeRequest [] "u" sampleOptions) =
      .ok { sampleAnalysis with needsHumanReview := true } ∧
    correctionRequests
      (analyzeRecitation (sampleComponents { sampleAnalysis with needsHumanReview := true } 5)
        [] "u" sampleOptions (sampleStore 0)).calls =
      if (({ sampleAnalysis with needsHumanReview := true } : AiAnalysis).needsHumanReview ||
          sampleOptions.requestHumanReview) = true then
        [correctionRequest { sampleAnalysis with needsHumanReview := true } "u" sampleOptions]
      else [] :=
  ⟨rfl, escalation_iff (sampleComponents { sampleAnalysis with needsHumanReview := true } 5)
    [] "u" sampleOptions (sampleStore 0) { sampleAnalysis with needsHumanReview := true } rfl⟩

/-- C7, as stated, fails: when `blockchainAttestation.record` throws and every
other collaborator succeeds, `analyzeRecitation` rejects with that error; the
points calculator is never called and the user's progress is not updated. -/
theorem attestation_failure_aborts :
    (failingAttestation sampleAnalysis 5).record
        (attestationRequest sampleAnalysis "u" sampleOptions) = .error "attestation failed" ∧
    (analyzeRecitation (failingAttestation sampleAnalysis 5) [] "u" sampleOptions
        (sampleStore 100)).result = .error "attestation failed" ∧
    calculatorRequests (analyzeRecitation (failingAttestation sampleAnalysis 5) [] "u"
        sampleOptions (sampleStore 100)).calls = [] ∧
    progressUpdates (analyzeRecitation (failingAttestation sampleAnalysis 5) [] "u"
        sampleOptions (sampleStore 100)).calls = [] ∧
    (analyzeRecitation (failingAttestation sampleAnalysis 5) [] "u" sampleOptions
        (sampleStore 100)).store "u" = 100 := by
  obtain ⟨h1, h2, h3⟩ := analyzeRecitation_record_error (failingAttestation sampleAnalysis 5)
    [] "u" sampleOptions (sampleStore 100) sampleAnalysis "attestation failed" rfl
    (fun _ => ⟨⟨"pending"⟩, rfl⟩) rfl
  obtain ⟨o1, o2, -⟩ := observations_record_error
    (sampleAnalysis.needsHumanReview || sampleOptions.requestHumanReview)
    (correctionRequest sampleAnalysis "u" sampleOptions)
    (attestationRequest sampleAnalysis "u" sampleOptions) (analyzeRequest [] "u" sampleOptions)
  refine ⟨rfl, h1, ?_, ?_, ?_⟩
  · rw [h3]; exact o1
  · rw [h3]; exact o2
  · rw [h2]; rfl

/-- C7, amended: when the analysis resolves, the escalation (if triggered)
resolves and `blockchainAttestation.record` throws `e`, `analyzeRecitation`
rejects with `e`: its calls end with the attestation attempt, the points
calculator is not called, no progress write or notification is made and the
progress store is unchanged. -/
theorem attestation_failure_rethrown (components : Components) (audioData : Buffer)
    (userId : String) (options : Options) (s : ProgressStore) (a : AiAnalysis) (e : Error)
    (h1 : components.analyze (analyzeRequest audioData userId options) = .ok a)
    (h2 : (a.needsHumanReview || options.requestHumanReview) = true →
      ∃ c, components.requestCorrection (correctionRequest a userId options) = .ok c)
    (h3 : components.record (attestationRequest a userId options) = .error e) :
    (analyzeRecitation components audioData userId options s).result = .error e ∧
    (analyzeRecitation components audioData userId options s).store = s ∧
    (analyzeRecitation components audioData userId options s).calls =
      [.analyze (analyzeRequest audioData userId options)] ++
      ((if (a.needsHumanReview || options.requestHumanReview) = true then
          [.requestCorrection (correctionRequest a userId options)] else []) ++
       [.record (attestationRequest a userId options)]) ∧
    calculatorRequests (analyzeRecitation components audioData userId options s).calls = [] ∧
    progressUpdates (analyzeRecitation components audioData userId options s).calls = [] ∧
    progressNotifications (analyzeRecitation components audioData userId options s).calls = [] ∧
    levelUpNotifications (analyzeRecitation components audioData userId options s).calls
      = [] := by
  obtain ⟨r1, r2, r3⟩ :=
    analyzeRecitation_record_error components audioData userId options s a e h1 h2 h3
  obtain ⟨o1, o2, o3, o4, -⟩ := observations_record_error
    (a.needsHumanReview || options.requestHumanReview)
    (correctionRequest a userId options)
    (attestationRequest a userId options) (analyzeRequest audioData userId options)
  refine ⟨r1, r2, r3, ?_, ?_, ?_, ?_⟩ <;> rw [r3] <;> assumption

/-- Witness for C7 (amended): the sample run with a failing attestation. -/
theorem attestation_failure_rethrown_witness :
    (analyzeRecitation (failingAttestation sampleAnalysis 5) [] "u" sampleOptions
        (sampleStore 100)).result = .error "attestation failed" ∧
    (analyzeRecitation (failingAttestation sampleAnalysis 5) [] "u" sampleOptions
        (sampleStore 100)).store = sampleStore 100 ∧
    (analyzeRecitation (failingAttestation sampleAnalysis 5) [] "u" sampleOptions
        (sampleStore 100)).calls =
      [.analyze (analyzeRequest [] "u" sampleOptions)] ++
      ((if (sampleAnalysis.needsHumanReview || sampleOptions.requestHumanReview) = true then
          [.requestCorrection (correctionRequest sampleAnalysis "u" sampleOptions)] else []) ++
       [.record (attestationRequest sampleAnalysis "u" sampleOptions)]) ∧
    calculatorRequests (analyzeRecitation (failingAttestation sampleAnalysis 5) [] "u"
        sampleOptions (sampleStore 100)).calls = [] ∧
    progressUpdates (analyzeRecitation (failingAttestation sampleAnalysis 5) [] "u"
        sampleOptions (sampleStore 100)).calls = [] ∧
    progressNotifications (analyzeRecitation (failingAttestation sampleAnalysis 5) [] "u"
        sampleOptions (sampleStore 100)).calls = [] ∧
    levelUpNotifications (analyzeRecitation (failingAttestation sampleAnalysis 5) [] "u"
        sampleOptions (sampleStore 100)).calls = [] :=
  attestation_failure_rethrown (failingAttestation sampleAnalysis 5) [] "u" sampleOptions
    (sampleStore 100) sampleAnalysis "attestation failed" rfl
    (fun _ => ⟨⟨"pending"⟩, rfl⟩) rfl

/-- C8, as stated, fails: the analysis service returns accuracy `150` and
confidence `2`; `analyzeRecitation` resolves successfully, the attestation is
recorded with accuracy `150`, 5 points are awarded and the user's cumulative
points go from 100 to 105. -/
theorem out_of_range_analysis_accepted :
    ¬ (0 ≤ outOfRangeAnalysis.accuracy ∧ outOfRangeAnalysis.accuracy ≤ 100) ∧
    ¬ (0 ≤ outOfRangeAnalysis.confidence ∧ outOfRangeAnalysis.confidence ≤ 1) ∧
    (sampleComponents outOfRangeAnalysis 5).analyze (analyzeRequest [] "u" sampleOptions) =
      .ok outOfRangeAnalysis ∧
    (∃ r, (analyzeRecitation (sampleComponents outOfRangeAnalysis 5) [] "u" sampleOptions
        (sampleStore 100)).result = .ok r ∧ r.success = true ∧ r.jannahPoints.earned = 5) ∧
    attestationRequests (analyzeRecitation (sampleComponents outOfRangeAnalysis 5) [] "u"
        sampleOptions (sampleStore 100)).calls =
      [attestationRequest outOfRangeAnalysis "u" sampleOptions] ∧
    (attestationRequest outOfRangeAnalysis "u" sampleOptions).accuracy = 150 ∧
    (analyzeRecitation (sampleComponents outOfRangeAnalysis 5) [] "u" sampleOptions
        (sampleStore 100)).store "u" = 105 := by
  obtain ⟨a, hc, att, c, t, jp, er, h1, -, -, h6, hr, hs, hatt, -⟩ :=
    analyzeRecitation_allSucceed (sampleComponents outOfRangeAnalysis 5)
      (sampleComponents_allSucceed outOfRangeAnalysis 5) [] "u" sampleOptions (sampleStore 100)
  have ha : a = outOfRangeAnalysis := by
    simp [sampleComponents] at h1; exact h1.symm
  have hj : jp = ⟨5⟩ := by
    simp [sampleComponents] at h6; exact h6.symm
  subst ha hj
  refine ⟨?_, ?_, rfl, ⟨_, hr, rfl, rfl⟩, hatt, rfl, ?_⟩
  · simp [outOfRangeAnalysis]; norm_num
  · simp [outOfRangeAnalysis]
  · rw [hs]; simp [ProgressStore.write, sampleStore]; norm_num

/-- When the level-up notification, if one is sent, does not throw,
`updateSpiritualProgress` resolves with the level of the new total and writes
the new total once. -/
theorem updateSpiritualProgress_ok_call (components : Components) (userId : String)
    (earnedPoints : ℚ) (s : ProgressStore)
    (hn : (calculateSpiritualLevel (s userId + earnedPoints)).level ≠
        (calculateSpiritualLevel (s userId)).level →
      components.sendLevelUpNotification
        ⟨userId, calculateSpiritualLevel (s userId),
          calculateSpiritualLevel (s userId + earnedPoints), earnedPoints⟩ = .ok ()) :
    (updateSpiritualProgress components userId earnedPoints s).result =
      .ok (calculateSpiritualLevel (s userId + earnedPoints)) ∧
    (updateSpiritualProgress components userId earnedPoints s).store =
      s.write userId (s userId + earnedPoints) ∧
    progressUpdates (updateSpiritualProgress components userId earnedPoints s).calls =
      [(userId, ⟨earnedPoints, s userId + earnedPoints,
        calculateSpiritualLevel (s userId + earnedPoints)⟩)] := by
  rw [updateSpiritualProgress_run]
  split_ifs with h
  · simp [hn h, progressUpdates]
  · simp [progressUpdates]

/-- The run of `analyzeRecitation` in which each call that is made is answered:
the hypotheses name the calls of this run only. -/
theorem analyzeRecitation_run_ok (components : Components) (audioData : Buffer)
    (userId : String) (options : Options) (s : ProgressStore)
    (a : AiAnalysis) (cr : Correction) (att : Attestation) (c t : ℚ)
    (jp : JannahPoints) (er : EternalRecord)
    (h1 : components.analyze (analyzeRequest audioData userId options) = .ok a)
    (h2 : (a.needsHumanReview || options.requestHumanReview) = true →
      components.requestCorrection (correctionRequest a userId options) = .ok cr)
    (h3 : components.record (attestationRequest a userId options) = .ok att)
    (h4 : components.getConsistencyScore userId = .ok c)
    (h5 : components.getTeachingBonus userId = .ok t)
    (h6 : components.calculate (pointsRequest a c t) = .ok jp)
    (h7 : components.store ⟨a, att, jp,
        (if (a.needsHumanReview || options.requestHumanReview) = true then some cr else none),
        "200+ years", userId⟩ = .ok er)
    (h8 : (calculateSpiritualLevel (s userId + jp.earned)).level ≠
        (calculateSpiritualLevel (s userId)).level →
      components.sendLevelUpNotification
        ⟨userId, calculateSpiritualLevel (s userId),
          calculateSpiritualLevel (s userId + jp.earned), jp.earned⟩ = .ok ())
    (h9 : components.sendProgressUpdate
        ⟨userId, jp, calculateSpiritualLevel (s userId + jp.earned), a.suggestions⟩ = .ok ()) :
    (analyzeRecitation components audioData userId options s).result =
      .ok ⟨true, a,
        (if (a.needsHumanReview || options.requestHumanReview) = true then some cr else none),
        att, jp, er, calculateSpiritualLevel (s userId + jp.earned),
        "Every letter counts for Jannah"⟩ ∧
    (analyzeRecitation components audioData userId options s).store =
      s.write userId (s userId + jp.earned) ∧
    attestationRequests (analyzeRecitation components audioData userId options s).calls =
      [attestationRequest a userId options] ∧
    calculatorRequests (analyzeRecitation components audioData userId options s).calls =
      [pointsRequest a c t] ∧
    progressUpdates (analyzeRecitation components audioData userId options s).calls =
      [(userId, ⟨jp.earned, s userId + jp.earned,
        calculateSpiritualLevel (s userId + jp.earned)⟩)] ∧
    progressNotifications (analyzeRecitation components audioData userId options s).calls =
      [⟨userId, jp, calculateSpiritualLevel (s userId + jp.earned), a.suggestions⟩] := by
  have h2' : (if (a.needsHumanReview || options.requestHumanReview) = true then
        Except.map some (components.requestCorrection (correctionRequest a userId options))
      else .ok none) =
      .ok (if (a.needsHumanReview || options.requestHumanReview) = true then some cr
        else none) := by
    split_ifs with hb
    · simp [h2 hb, Except.map]
    · rfl
  obtain ⟨u1, u2, u3⟩ := updateSpiritualProgress_ok_call components userId jp.earned s h8
  obtain ⟨-, o2, o3⟩ := updateSpiritualProgress_observations components userId jp.earned s
  have hcu := calculatorRequests_updateSpiritualProgress components userId jp.earned s
  obtain ⟨r1, r2, r3⟩ := analyzeRecitation_success components audioData userId options s a _
    att c t jp er _ h1 h2' h3 h4 h5 h6 h7 u1 h9
  rw [u2] at r2
  generalize (updateSpiritualProgress components userId jp.earned s).calls = ucs
    at r3 o2 o3 hcu u3
  refine ⟨r1, r2, ?_, ?_, ?_, ?_⟩
  · rw [r3]
    simp [attestationRequests_append, attestationRequests, o2, apply_ite attestationRequests]
  · rw [r3]
    simp [calculatorRequests_append, calculatorRequests, hcu, apply_ite calculatorRequests]
  · rw [r3]
    simp [progressUpdates_append, progressUpdates, u3, apply_ite progressUpdates]
  · rw [r3]
    simp [progressNotifications_append, progressNotifications, o3,
      apply_ite progressNotifications]

/-- C8, amended: `analyzeRecitation` makes no range check on the analysis.
Whatever accuracy and confidence the analysis `a` carries, when none of the
calls made in the run throws (the hypotheses name exactly those calls), the run
resolves, the attestation is attempted once with `accuracy = a.accuracy`, the
calculator is asked once, and its award is added to the user's cumulative
points. -/
theorem no_range_validation (components : Components) (audioData : Buffer)
    (userId : String) (options : Options) (s : ProgressStore)
    (a : AiAnalysis) (cr : Correction) (att : Attestation) (c t : ℚ)
    (jp : JannahPoints) (er : EternalRecord)
    (h1 : components.analyze (analyzeRequest audioData userId options) = .ok a)
    (h2 : (a.needsHumanReview || options.requestHumanReview) = true →
      components.requestCorrection (correctionRequest a userId options) = .ok cr)
    (h3 : components.record (attestationRequest a userId options) = .ok att)
    (h4 : components.getConsistencyScore userId = .ok c)
    (h5 : components.getTeachingBonus userId = .ok t)
    (h6 : components.calculate (pointsRequest a c t) = .ok jp)
    (h7 : components.store ⟨a, att, jp,
        (if (a.needsHumanReview || options.requestHumanReview) = true then some cr else none),
        "200+ years", userId⟩ = .ok er)
    (h8 : (calculateSpiritualLevel (s userId + jp.earned)).level ≠
        (calculateSpiritualLevel (s userId)).level →
      components.sendLevelUpNotification
        ⟨userId, calculateSpiritualLevel (s userId),
          calculateSpiritualLevel (s userId + jp.earned), jp.earned⟩ = .ok ())
    (h9 : components.sendProgressUpdate
        ⟨userId, jp, calculateSpiritualLevel (s userId + jp.earned), a.suggestions⟩ = .ok ()) :
    (analyzeRecitation components audioData userId options s).result =
      .ok ⟨true, a,
        (if (a.needsHumanReview || options.requestHumanReview) = true then some cr else none),
        att, jp, er, calculateSpiritualLevel (s userId + jp.earned),
        "Every letter counts for Jannah"⟩ ∧
    attestationRequests (analyzeRecitation components audioData userId options s).calls =
      [attestationRequest a userId options] ∧
    (attestationRequest a userId options).accuracy = a.accuracy ∧
    calculatorRequests (analyzeRecitation components audioData userId options s).calls =
      [pointsRequest a c t] ∧
    (analyzeRecitation components audioData userId options s).store =
      s.write userId (s userId + jp.earned) ∧
    (analyzeRecitation components audioData userId options s).store userId =
      s userId + jp.earned := by
  obtain ⟨r1, r2, r3, r4, -, -⟩ := analyzeRecitation_run_ok components audioData userId
    options s a cr att c t jp er h1 h2 h3 h4 h5 h6 h7 h8 h9
  refine ⟨r1, r3, rfl, r4, r2, ?_⟩
  rw [r2]; simp [ProgressStore.write]

/-- Witness for C8 (amended): the out-of-range analysis (accuracy 150,
confidence 2) and the sample components, starting from 100 points. -/
theorem no_range_validation_witness :
    (analyzeRecitation (sampleComponents outOfRangeAnalysis 5) [] "u" sampleOptions
        (sampleStore 100)).result =
      .ok ⟨true, outOfRangeAnalysis,
        (if (outOfRangeAnalysis.needsHumanReview || sampleOptions.requestHumanReview) = true
          then some ⟨"pending"⟩ else none),
        ⟨"0xabc"⟩, ⟨5⟩, ⟨"0xdef"⟩,
        calculateSpiritualLevel (sampleStore 100 "u" + (⟨5⟩ : JannahPoints).earned),
        "Every letter counts for Jannah"⟩ ∧
    attestationRequests (analyzeRecitation (sampleComponents outOfRangeAnalysis 5) [] "u"
        sampleOptions (sampleStore 100)).calls =
      [attestationRequest outOfRangeAnalysis "u" sampleOptions] ∧
    (attestationRequest outOfRangeAnalysis "u" sampleOptions).accuracy =
      outOfRangeAnalysis.accuracy ∧
    calculatorRequests (analyzeRecitation (sampleComponents outOfRangeAnalysis 5) [] "u"
        sampleOptions (sampleStore 100)).calls =
      [pointsRequest outOfRangeAnalysis (4 / 5) 1] ∧
    (analyzeRecitation (sampleComponents outOfRangeAnalysis 5) [] "u" sampleOptions
        (sampleStore 100)).store =
      (sampleStore 100).write "u" (sampleStore 100 "u" + (⟨5⟩ : JannahPoints).earned) ∧
    (analyzeRecitation (sampleComponents outOfRangeAnalysis 5) [] "u" sampleOptions
        (sampleStore 100)).store "u" =
      sampleStore 100 "u" + (⟨5⟩ : JannahPoints).earned :=
  no_range_validation (sampleComponents outOfRangeAnalysis 5) [] "u" sampleOptions
    (sampleStore 100) outOfRangeAnalysis ⟨"pending"⟩ ⟨"0xabc"⟩ (4 / 5) 1 ⟨5⟩ ⟨"0xdef"⟩
    rfl (fun _ => rfl) rfl rfl rfl rfl rfl (fun _ => rfl) rfl

/-- Two runs of `analyzeRecitation` on the same submission, the second starting
from the progress store the first one left, when no collaborator throws. -/
theorem analyzeRecitation_twice (components : Components) (hall : components.AllSucceed)
    (audioData : Buffer) (userId : String) (options : Options) (s : ProgressStore) :
    ∃ (a : AiAnalysis) (c t : ℚ) (jp : JannahPoints),
      components.analyze (analyzeRequest audioData userId options) = .ok a ∧
      components.calculate (pointsRequest a c t) = .ok jp ∧
      (analyzeRecitation components audioData userId options s).store userId =
        s userId + jp.earned ∧
      (analyzeRecitation components audioData userId options
        (analyzeRecitation components audioData userId options s).store).store userId =
        s userId + jp.earned + jp.earned ∧
      attestationRequests
        ((analyzeRecitation components audioData userId options s).calls ++
          (analyzeRecitation components audioData userId options
            (analyzeRecitation components audioData userId options s).store).calls) =
        [attestationRequest a userId options, attestationRequest a userId options] ∧
      calculatorRequests
        ((analyzeRecitation components audioData userId options s).calls ++
          (analyzeRecitation components audioData userId options
            (analyzeRecitation components audioData userId options s).store).calls) =
        [pointsRequest a c t, pointsRequest a c t] ∧
      (progressUpdates
        ((analyzeRecitation components audioData userId options s).calls ++
          (analyzeRecitation components audioData userId options
            (analyzeRecitation components audioData userId options s).store).calls)).length
        = 2 ∧
      (progressNotifications
        ((analyzeRecitation components audioData userId options s).calls ++
          (analyzeRecitation components audioData userId options
            (analyzeRecitation components audioData userId options s).store).calls)).length
        = 2 := by
  obtain ⟨a, hc, att, c, t, jp, er, h1, h4, h5, h6, hr, hs, hatt, hcal, hupd, hnote⟩ :=
    analyzeRecitation_allSucceed components hall audioData userId options s
  obtain ⟨a', hc', att', c', t', jp', er', h1', h4', h5', h6', hr', hs', hatt', hcal', hupd',
      hnote'⟩ :=
    analyzeRecitation_allSucceed components hall audioData userId options
      (analyzeRecitation components audioData userId options s).store
  have ha : a' = a := by
    rw [h1] at h1'; exact (Except.ok.inj h1').symm
  have hcc : c' = c := by
    rw [h4] at h4'; exact (Except.ok.inj h4').symm
  have htt : t' = t := by
    rw [h5] at h5'; exact (Except.ok.inj h5').symm
  subst ha hcc htt
  have hj : jp' = jp := by
    rw [h6] at h6'; exact (Except.ok.inj h6').symm
  subst hj
  have e1 : (analyzeRecitation components audioData userId options s).store userId =
      s userId + jp'.earned := by
    rw [hs]; simp [ProgressStore.write]
  refine ⟨a', c', t', jp', h1, h6, e1, ?_, ?_, ?_, ?_, ?_⟩
  · rw [hs', e1]; simp [ProgressStore.write]
  · rw [attestationRequests_append, hatt, hatt']; rfl
  · rw [calculatorRequests_append, hcal, hcal']; rfl
  · rw [progressUpdates_append, hupd, hupd']; rfl
  · rw [progressNotifications_append, hnote, hnote']; rfl

/-- C9, as stated, fails: the same submission processed twice, with
collaborators that return the same results, leaves 5 cumulative points after
the first run and 10 after the second, and the two runs make two attestation
attempts and send two progress notifications. -/
theorem resubmission_awards_twice :
    (analyzeRecitation (sampleComponents sampleAnalysis 5) [] "u" sampleOptions
        (sampleStore 0)).store "u" = 5 ∧
    (analyzeRecitation (sampleComponents sampleAnalysis 5) [] "u" sampleOptions
        (analyzeRecitation (sampleComponents sampleAnalysis 5) [] "u" sampleOptions
          (sampleStore 0)).store).store "u" = 10 ∧
    (attestationRequests
      ((analyzeRecitation (sampleComponents sampleAnalysis 5) [] "u" sampleOptions
          (sampleStore 0)).calls ++
        (analyzeRecitation (sampleComponents sampleAnalysis 5) [] "u" sampleOptions
          (analyzeRecitation (sampleComponents sampleAnalysis 5) [] "u" sampleOptions
            (sampleStore 0)).store).calls)).length = 2 ∧
    (progressNotifications
      ((analyzeRecitation (sampleComponents sampleAnalysis 5) [] "u" sampleOptions
          (sampleStore 0)).calls ++
        (analyzeRecitation (sampleComponents sampleAnalysis 5) [] "u" sampleOptions
          (analyzeRecitation (sampleComponents sampleAnalysis 5) [] "u" sampleOptions
            (sampleStore 0)).store).calls)).length = 2 := by
  obtain ⟨a, c, t, jp, -, h6, e1, e2, hatt, -, -, hnote⟩ :=
    analyzeRecitation_twice (sampleComponents sampleAnalysis 5)
      (sampleComponents_allSucceed sampleAnalysis 5) [] "u" sampleOptions (sampleStore 0)
  have hj : jp = ⟨5⟩ := by
    simp [sampleComponents] at h6; exact h6.symm
  subst hj
  refine ⟨?_, ?_, ?_, hnote⟩
  · rw [e1]; simp [sampleStore]
  · rw [e2]; simp [sampleStore]; norm_num
  · rw [hatt]; rfl

theorem ProgressStore.write_same (s : ProgressStore) (userId : String) (v : ℚ) :
    s.write userId v userId = v := by
  simp [ProgressStore.write]

/-- C9, amended: `analyzeRecitation` keeps no record of processed submissions.
Processing the same submission twice, the second run starting from the
progress the first one left, with collaborators that return the same results
and none of the calls made in the two runs throwing (the hypotheses name
exactly those calls), makes two attestation attempts, two calculator requests,
two progress writes and two progress notifications; after the second run the
user's cumulative points are their value after the first run plus the same
award again. -/
theorem resubmission_awards_again (components : Components) (audioData : Buffer)
    (userId : String) (options : Options) (s : ProgressStore)
    (a : AiAnalysis) (cr : Correction) (att : Attestation) (c t : ℚ)
    (jp : JannahPoints) (er : EternalRecord)
    (h1 : components.analyze (analyzeRequest audioData userId options) = .ok a)
    (h2 : (a.needsHumanReview || options.requestHumanReview) = true →
      components.requestCorrection (correctionRequest a userId options) = .ok cr)
    (h3 : components.record (attestationRequest a userId options) = .ok att)
    (h4 : components.getConsistencyScore userId = .ok c)
    (h5 : components.getTeachingBonus userId = .ok t)
    (h6 : components.calculate (pointsRequest a c t) = .ok jp)
    (h7 : components.store ⟨a, att, jp,
        (if (a.needsHumanReview || options.requestHumanReview) = true then some cr else none),
        "200+ years", userId⟩ = .ok er)
    (h8 : (calculateSpiritualLevel (s userId + jp.earned)).level ≠
        (calculateSpiritualLevel (s userId)).level →
      components.sendLevelUpNotification
        ⟨userId, calculateSpiritualLevel (s userId),
          calculateSpiritualLevel (s userId + jp.earned), jp.earned⟩ = .ok ())
    (h9 : components.sendProgressUpdate
        ⟨userId, jp, calculateSpiritualLevel (s userId + jp.earned), a.suggestions⟩ = .ok ())
    (h8' : (calculateSpiritualLevel (s userId + jp.earned + jp.earned)).level ≠
        (calculateSpiritualLevel (s userId + jp.earned)).level →
      components.sendLevelUpNotification
        ⟨userId, calculateSpiritualLevel (s userId + jp.earned),
          calculateSpiritualLevel (s userId + jp.earned + jp.earned), jp.earned⟩ = .ok ())
    (h9' : components.sendProgressUpdate
        ⟨userId, jp, calculateSpiritualLevel (s userId + jp.earned + jp.earned),
          a.suggestions⟩ = .ok ()) :
    (analyzeRecitation components audioData userId options s).store userId = s userId + jp.earned ∧
    (analyzeRecitation components audioData userId options
        (analyzeRecitation components audioData userId options s).store).store userId = s userId + jp.earned + jp.earned ∧
    attestationRequests ((analyzeRecitation components audioData userId options s).calls ++ (analyzeRecitation components audioData userId options
        (analyzeRecitation components audioData userId options s).store).calls) = [attestationRequest a userId options, attestationRequest a userId options] ∧
    calculatorRequests ((analyzeRecitation components audioData userId options s).calls ++ (analyzeRecitation components audioData userId options
        (analyzeRecitation components audioData userId options s).store).calls) = [pointsRequest a c t, pointsRequest a c t] ∧
    progressUpdates ((analyzeRecitation components audioData userId options s).calls ++ (analyzeRecitation components audioData userId options
        (analyzeRecitation components audioData userId options s).store).calls) =
      [(userId, ⟨jp.earned, s userId + jp.earned,
          calculateSpiritualLevel (s userId + jp.earned)⟩),
       (userId, ⟨jp.earned, s userId + jp.earned + jp.earned,
          calculateSpiritualLevel (s userId + jp.earned + jp.earned)⟩)] ∧
    progressNotifications ((analyzeRecitation components audioData userId options s).calls ++ (analyzeRecitation components audioData userId options
        (analyzeRecitation components audioData userId options s).store).calls) =
      [⟨userId, jp, calculateSpiritualLevel (s userId + jp.earned), a.suggestions⟩,
       ⟨userId, jp, calculateSpiritualLevel (s userId + jp.earned + jp.earned),
          a.suggestions⟩] := by
  obtain ⟨-, r2, r3, r4, r5, r6⟩ := analyzeRecitation_run_ok components audioData userId
    options s a cr att c t jp er h1 h2 h3 h4 h5 h6 h7 h8 h9
  rw [r2]
  obtain ⟨-, q2, q3, q4, q5, q6⟩ := analyzeRecitation_run_ok components audioData userId
    options (s.write userId (s userId + jp.earned)) a cr att c t jp er h1 h2 h3 h4 h5 h6 h7
    (by rw [ProgressStore.write_same]; exact h8')
    (by rw [ProgressStore.write_same]; exact h9')
  rw [ProgressStore.write_same] at q2 q5 q6
  refine ⟨ProgressStore.write_same _ _ _, ?_, ?_, ?_, ?_, ?_⟩
  · rw [q2]; exact ProgressStore.write_same _ _ _
  · rw [attestationRequests_append, r3, q3]; rfl
  · rw [calculatorRequests_append, r4, q4]; rfl
  · rw [progressUpdates_append, r5, q5]; rfl
  · rw [progressNotifications_append, r6, q6]; rfl

/-- Witness for C9 (amended): the sample submission processed twice by
components that validate their input (and so reject other requests), starting
from 0 points. -/
theorem resubmission_awards_again_witness :
    (analyzeRecitation (validatingComponents sampleAnalysis 5) [] "u" sampleOptions
        (sampleStore 0)).store "u" = sampleStore 0 "u" + (⟨5⟩ : JannahPoints).earned ∧
    (analyzeRecitation (validatingComponents sampleAnalysis 5) [] "u" sampleOptions
        (analyzeRecitation (validatingComponents sampleAnalysis 5) [] "u" sampleOptions
          (sampleStore 0)).store).store "u" = sampleStore 0 "u" + (⟨5⟩ : JannahPoints).earned + (⟨5⟩ : JannahPoints).earned ∧
    attestationRequests ((analyzeRecitation (validatingComponents sampleAnalysis 5) [] "u" sampleOptions
        (sampleStore 0)).calls ++ (analyzeRecitation (validatingComponents sampleAnalysis 5) [] "u" sampleOptions
        (analyzeRecitation (validatingComponents sampleAnalysis 5) [] "u" sampleOptions
          (sampleStore 0)).store).calls) = [attestationRequest sampleAnalysis "u" sampleOptions, attestationRequest sampleAnalysis "u" sampleOptions] ∧
    calculatorRequests ((analyzeRecitation (validatingComponents sampleAnalysis 5) [] "u" sampleOptions
        (sampleStore 0)).calls ++ (analyzeRecitation (validatingComponents sampleAnalysis 5) [] "u" sampleOptions
        (analyzeRecitation (validatingComponents sampleAnalysis 5) [] "u" sampleOptions
          (sampleStore 0)).store).calls) = [pointsRequest sampleAnalysis (4 / 5) 1, pointsRequest sampleAnalysis (4 / 5) 1] ∧
    progressUpdates ((analyzeRecitation (validatingComponents sampleAnalysis 5) [] "u" sampleOptions
        (sampleStore 0)).calls ++ (analyzeRecitation (validatingComponents sampleAnalysis 5) [] "u" sampleOptions
        (analyzeRecitation (validatingComponents sampleAnalysis 5) [] "u" sampleOptions
          (sampleStore 0)).store).calls) =
      [("u", ⟨(⟨5⟩ : JannahPoints).earned, sampleStore 0 "u" + (⟨5⟩ : JannahPoints).earned,
          calculateSpiritualLevel (sampleStore 0 "u" + (⟨5⟩ : JannahPoints).earned)⟩),
       ("u", ⟨(⟨5⟩ : JannahPoints).earned, sampleStore 0 "u" + (⟨5⟩ : JannahPoints).earned + (⟨5⟩ : JannahPoints).earned,
          calculateSpiritualLevel (sampleStore 0 "u" + (⟨5⟩ : JannahPoints).earned + (⟨5⟩ : JannahPoints).earned)⟩)] ∧
    progressNotifications ((analyzeRecitation (validatingComponents sampleAnalysis 5) [] "u" sampleOptions
        (sampleStore 0)).calls ++ (analyzeRecitation (validatingComponents sampleAnalysis 5) [] "u" sampleOptions
        (analyzeRecitation (validatingComponents sampleAnalysis 5) [] "u" sampleOptions
          (sampleStore 0)).store).calls) =
      [⟨"u", (⟨5⟩ : JannahPoints), calculateSpiritualLevel (sampleStore 0 "u" + (⟨5⟩ : JannahPoints).earned), sampleAnalysis.suggestions⟩,
       ⟨"u", (⟨5⟩ : JannahPoints), calculateSpiritualLevel (sampleStore 0 "u" + (⟨5⟩ : JannahPoints).earned + (⟨5⟩ : JannahPoints).earned),
          sampleAnalysis.suggestions⟩] :=
  resubmission_awards_again (validatingComponents sampleAnalysis 5) [] "u" sampleOptions
    (sampleStore 0) sampleAnalysis ⟨"pending"⟩ ⟨"0xabc"⟩ (4 / 5) 1 ⟨5⟩ ⟨"0xdef"⟩
    rfl (fun _ => rfl)
    (by simp [validatingComponents, attestationRequest, sampleAnalysis]; norm_num)
    rfl rfl
    (by simp [validatingComponents, pointsRequest]; norm_num)
    rfl (fun _ => rfl) rfl (fun _ => rfl) rfl

/-! ## Level engine: next-level distance and the fallback -/

theorem inRange_natCast (n : ℕ) (c : TierConfig) :
    inRange (n : ℚ) c = true ↔ c.min ≤ n ∧ ∀ m, c.max = some m → n ≤ m := by
  rw [inRange_iff]
  constructor
  · rintro ⟨h1, h2⟩
    exact ⟨by exact_mod_cast h1, fun m hm => by exact_mod_cast h2 m hm⟩
  · rintro ⟨h1, h2⟩
    exact ⟨by exact_mod_cast h1, fun m hm => by exact_mod_cast h2 m hm⟩

/-- From a number `n` in a bounded tier `cur` whose successor `nxt` starts right
above its maximum `m`: adding `m + 1 - n` lands on the first number of `nxt`,
adding less stays in `cur`. -/
theorem next_tier_step (n m : ℕ) (cur nxt : String × TierConfig)
    (hcur : cur ∈ spiritualLevels) (hnxt : nxt ∈ spiritualLevels)
    (hmax : cur.2.max = some m) (hmin : nxt.2.min = m + 1)
    (hnmax : ∀ m', nxt.2.max = some m' → m + 1 ≤ m')
    (hr : inRange (n : ℚ) cur.2 = true) :
    n ≤ m ∧
    calculateSpiritualLevel ((n : ℚ) + ((m + 1 - n : ℕ) : ℚ)) =
      levelRecord nxt ((n : ℚ) + ((m + 1 - n : ℕ) : ℚ)) ∧
    ∀ k : ℕ, k < m + 1 - n →
      calculateSpiritualLevel ((n : ℚ) + (k : ℚ)) = levelRecord cur ((n : ℚ) + (k : ℚ)) := by
  rw [inRange_natCast] at hr
  obtain ⟨h1, h2⟩ := hr
  have hnm : n ≤ m := h2 m hmax
  refine ⟨hnm, ?_, ?_⟩
  · apply calculateSpiritualLevel_eq _ nxt hnxt
    rw [← Nat.cast_add, inRange_natCast]
    refine ⟨by omega, fun m' hm' => ?_⟩
    have := hnmax m' hm'
    omega
  · intro k hk
    apply calculateSpiritualLevel_eq _ cur hcur
    rw [← Nat.cast_add, inRange_natCast]
    refine ⟨by omega, fun m' hm' => ?_⟩
    rw [hmax] at hm'
    have : m = m' := Option.some.inj hm'
    omega

/-- C12: for every natural number `n` below the Master tier, the
`pointsNeeded` of `getNextLevel (calculateSpiritualLevel n)` is a positive
natural number `d`; `calculateSpiritualLevel (n + d)` is the record of the
returned next tier, a tier other than the current one, and for every natural
`k < d`, `calculateSpiritualLevel (n + k)` is still the record of the current
tier.  So `d` is the least additional amount that changes the tier. -/
theorem pointsNeeded_least (n : ℕ) (h : n < 10001) :
    ∃ (cur nxt : String × TierConfig) (next : NextLevel) (d : ℕ),
      cur ∈ spiritualLevels ∧ nxt ∈ spiritualLevels ∧
      inRange (n : ℚ) cur.2 = true ∧
      calculateSpiritualLevel (n : ℚ) = levelRecord cur (n : ℚ) ∧
      getNextLevel (calculateSpiritualLevel (n : ℚ)) = some next ∧
      next.level = nxt.1 ∧ next.title = nxt.2.title ∧
      next.pointsNeeded = some (d : ℚ) ∧ 0 < d ∧
      calculateSpiritualLevel ((n : ℚ) + (d : ℚ)) = levelRecord nxt ((n : ℚ) + (d : ℚ)) ∧
      (∀ k : ℕ, k < d →
        calculateSpiritualLevel ((n : ℚ) + (k : ℚ)) = levelRecord cur ((n : ℚ) + (k : ℚ))) ∧
      nxt.1 ≠ cur.1 := by
  obtain ⟨e, he, hr⟩ := exists_tier n
  have hc := calculateSpiritualLevel_eq (n : ℚ) e he hr
  obtain ⟨g1, g2, g3, g4, g5, -⟩ := getNextLevel_levelRecord (n : ℚ)
  have he' := he
  rw [mem_spiritualLevels] at he'
  rcases he' with rfl | rfl | rfl | rfl | rfl | rfl
  · obtain ⟨hnm, hA, hB⟩ := next_tier_step n 100 ("student", spiritualLevels.student)
      ("learner", spiritualLevels.learner) (by simp [spiritualLevels]) (by simp [spiritualLevels])
      rfl rfl (by simp [spiritualLevels.learner]) hr
    refine ⟨_, _, ⟨"learner", "Learner", "📚", 101, some (101 - (n : ℚ))⟩, 100 + 1 - n,
      he, by simp [spiritualLevels], hr, hc, by rw [hc, g1], rfl, rfl, ?_, by omega, hA, hB,
      by decide⟩
    have hle : n ≤ 100 + 1 := by omega
    simp [Nat.cast_sub hle]
  · obtain ⟨hnm, hA, hB⟩ := next_tier_step n 500 ("learner", spiritualLevels.learner)
      ("reciter", spiritualLevels.reciter) (by simp [spiritualLevels]) (by simp [spiritualLevels])
      rfl rfl (by simp [spiritualLevels.reciter]) hr
    refine ⟨_, _, ⟨"reciter", "Reciter", "🎵", 501, some (501 - (n : ℚ))⟩, 500 + 1 - n,
      he, by simp [spiritualLevels], hr, hc, by rw [hc, g2], rfl, rfl, ?_, by omega, hA, hB,
      by decide⟩
    have hle : n ≤ 500 + 1 := by omega
    simp [Nat.cast_sub hle]
  · obtain ⟨hnm, hA, hB⟩ := next_tier_step n 1000 ("reciter", spiritualLevels.reciter)
      ("hafiz", spiritualLevels.hafiz) (by simp [spiritualLevels]) (by simp [spiritualLevels])
      rfl rfl (by simp [spiritualLevels.hafiz]) hr
    refine ⟨_, _, ⟨"hafiz", "Hafiz", "📖", 1001, some (1001 - (n : ℚ))⟩, 1000 + 1 - n,
      he, by simp [spiritualLevels], hr, hc, by rw [hc, g3], rfl, rfl, ?_, by omega, hA, hB,
      by decide⟩
    have hle : n ≤ 1000 + 1 := by omega
    simp [Nat.cast_sub hle]
  · obtain ⟨hnm, hA, hB⟩ := next_tier_step n 5000 ("hafiz", spiritualLevels.hafiz)
      ("qari", spiritualLevels.qari) (by simp [spiritualLevels]) (by simp [spiritualLevels])
      rfl rfl (by simp [spiritualLevels.qari]) hr
    refine ⟨_, _, ⟨"qari", "Qari", "🎙️", 5001, some (5001 - (n : ℚ))⟩, 5000 + 1 - n,
      he, by simp [spiritualLevels], hr, hc, by rw [hc, g4], rfl, rfl, ?_, by omega, hA, hB,
      by decide⟩
    have hle : n ≤ 5000 + 1 := by omega
    simp [Nat.cast_sub hle]
  · obtain ⟨hnm, hA, hB⟩ := next_tier_step n 10000 ("qari", spiritualLevels.qari)
      ("master", spiritualLevels.master) (by simp [spiritualLevels]) (by simp [spiritualLevels])
      rfl rfl (by simp [spiritualLevels.master]) hr
    refine ⟨_, _, ⟨"master", "Master", "👑", 10001, some (10001 - (n : ℚ))⟩, 10000 + 1 - n,
      he, by simp [spiritualLevels], hr, hc, by rw [hc, g5], rfl, rfl, ?_, by omega, hA, hB,
      by decide⟩
    have hle : n ≤ 10000 + 1 := by omega
    simp [Nat.cast_sub hle]
  · exfalso
    rw [inRange_natCast] at hr
    simp [spiritualLevels.master] at hr
    omega

/-- Witness for C12: at 100 points (Student) one more point is needed. -/
theorem pointsNeeded_least_witness :
    ∃ (cur nxt : String × TierConfig) (next : NextLevel) (d : ℕ),
      cur ∈ spiritualLevels ∧ nxt ∈ spiritualLevels ∧
      inRange ((100 : ℕ) : ℚ) cur.2 = true ∧
      calculateSpiritualLevel ((100 : ℕ) : ℚ) = levelRecord cur ((100 : ℕ) : ℚ) ∧
      getNextLevel (calculateSpiritualLevel ((100 : ℕ) : ℚ)) = some next ∧
      next.level = nxt.1 ∧ next.title = nxt.2.title ∧
      next.pointsNeeded = some (d : ℚ) ∧ 0 < d ∧
      calculateSpiritualLevel (((100 : ℕ) : ℚ) + (d : ℚ)) =
        levelRecord nxt (((100 : ℕ) : ℚ) + (d : ℚ)) ∧
      (∀ k : ℕ, k < d →
        calculateSpiritualLevel (((100 : ℕ) : ℚ) + (k : ℚ)) =
          levelRecord cur (((100 : ℕ) : ℚ) + (k : ℚ))) ∧
      nxt.1 ≠ cur.1 :=
  pointsNeeded_least 100 (by decide)

theorem inRange_eq_false_of_lt (p : ℚ) (c : TierConfig) (h : p < (c.min : ℚ)) :
    inRange p c = false := by
  cases hc : inRange p c with
  | false => rfl
  | true =>
    rw [inRange_iff] at hc
    exact absurd hc.1 (not_le.mpr h)

theorem inRange_eq_false_of_gt (p : ℚ) (c : TierConfig) (m : ℕ) (hm : c.max = some m)
    (h : (m : ℚ) < p) : inRange p c = false := by
  cases hc : inRange p c with
  | false => rfl
  | true =>
    rw [inRange_iff] at hc
    exact absurd (hc.2 m hm) (not_le.mpr h)

/-- When no tier of the table contains `points`, the loop ends without
returning and `calculateSpiritualLevel` answers with the raw Student entry. -/
theorem calculateSpiritualLevel_fallback (p : ℚ)
    (h : ∀ e : String × TierConfig, e ∈ spiritualLevels → inRange p e.2 = false) :
    calculateSpiritualLevel p = .raw spiritualLevels.student := by
  have h1 := h ("student", spiritualLevels.student) (by simp [spiritualLevels])
  have h2 := h ("learner", spiritualLevels.learner) (by simp [spiritualLevels])
  have h3 := h ("reciter", spiritualLevels.reciter) (by simp [spiritualLevels])
  have h4 := h ("hafiz", spiritualLevels.hafiz) (by simp [spiritualLevels])
  have h5 := h ("qari", spiritualLevels.qari) (by simp [spiritualLevels])
  have h6 := h ("master", spiritualLevels.master) (by simp [spiritualLevels])
  simp only at h1 h2 h3 h4 h5 h6
  simp [calculateSpiritualLevel, calculateSpiritualLevel.loop, spiritualLevels, h1, h2, h3, h4,
    h5, h6]

theorem getNextLevel_raw_student :
    getNextLevel (.raw spiritualLevels.student) = some ⟨"student", "Student", "🌱", 0, none⟩ := by
  simp [getNextLevel, indexOf, LevelValue.level, LevelValue.points, spiritualLevels,
    spiritualLevels.student]

/-- A negative number is in no tier. -/
theorem no_tier_of_neg (p : ℚ) (h : p < 0) (e : String × TierConfig)
    (_he : e ∈ spiritualLevels) : inRange p e.2 = false := by
  apply inRange_eq_false_of_lt
  have : (0 : ℚ) ≤ (e.2.min : ℚ) := Nat.cast_nonneg _
  linarith

/-- A number strictly between the maximum `m` of a tier and `m + 1` is in no
tier: every tier of the table either ends at or below `m` or starts at or above
`m + 1`. -/
theorem no_tier_in_gap (p : ℚ) (m : ℕ)
    (hm : m = 100 ∨ m = 500 ∨ m = 1000 ∨ m = 5000 ∨ m = 10000)
    (h1 : (m : ℚ) < p) (h2 : p < (m : ℚ) + 1) (e : String × TierConfig)
    (he : e ∈ spiritualLevels) : inRange p e.2 = false := by
  rw [mem_spiritualLevels] at he
  rcases hm with rfl | rfl | rfl | rfl | rfl <;>
    rcases he with rfl | rfl | rfl | rfl | rfl | rfl <;>
    first
      | (apply inRange_eq_false_of_lt
         simp only [spiritualLevels.student, spiritualLevels.learner, spiritualLevels.reciter,
           spiritualLevels.hafiz, spiritualLevels.qari, spiritualLevels.master]
         push_cast at h1 h2 ⊢
         linarith)
      | (refine inRange_eq_false_of_gt p _ _ rfl ?_
         push_cast at h1 h2 ⊢
         linarith)

theorem loop_eq_none (p : ℚ)
    (h : ∀ e : String × TierConfig, e ∈ spiritualLevels → inRange p e.2 = false) :
    calculateSpiritualLevel.loop p spiritualLevels = none := by
  have h1 := h ("student", spiritualLevels.student) (by simp [spiritualLevels])
  have h2 := h ("learner", spiritualLevels.learner) (by simp [spiritualLevels])
  have h3 := h ("reciter", spiritualLevels.reciter) (by simp [spiritualLevels])
  have h4 := h ("hafiz", spiritualLevels.hafiz) (by simp [spiritualLevels])
  have h5 := h ("qari", spiritualLevels.qari) (by simp [spiritualLevels])
  have h6 := h ("master", spiritualLevels.master) (by simp [spiritualLevels])
  simp only at h1 h2 h3 h4 h5 h6
  simp [calculateSpiritualLevel.loop, spiritualLevels, h1, h2, h3, h4, h5, h6]

/-- The gaps of the table: two consecutive entries, the first with maximum `m`,
the second starting at `m + 1`, with `m` one of the five finite maxima. -/
theorem consecutive_entries (i m : ℕ) (cur nxt : String × TierConfig)
    (hcur : spiritualLevels.get? i = some cur) (hnxt : spiritualLevels.get? (i + 1) = some nxt)
    (hm : cur.2.max = some m) :
    (m = 100 ∨ m = 500 ∨ m = 1000 ∨ m = 5000 ∨ m = 10000) ∧ nxt.2.min = m + 1 := by
  match i, hcur, hnxt with
  | 0, hcur, hnxt =>
    simp [spiritualLevels] at hcur hnxt
    subst hcur hnxt
    simp [spiritualLevels.student] at hm
    subst hm
    simp [spiritualLevels.learner]
  | 1, hcur, hnxt =>
    simp [spiritualLevels] at hcur hnxt
    subst hcur hnxt
    simp [spiritualLevels.learner] at hm
    subst hm
    simp [spiritualLevels.reciter]
  | 2, hcur, hnxt =>
    simp [spiritualLevels] at hcur hnxt
    subst hcur hnxt
    simp [spiritualLevels.reciter] at hm
    subst hm
    simp [spiritualLevels.hafiz]
  | 3, hcur, hnxt =>
    simp [spiritualLevels] at hcur hnxt
    subst hcur hnxt
    simp [spiritualLevels.hafiz] at hm
    subst hm
    simp [spiritualLevels.qari]
  | 4, hcur, hnxt =>
    simp [spiritualLevels] at hcur hnxt
    subst hcur hnxt
    simp [spiritualLevels.qari] at hm
    subst hm
    simp [spiritualLevels.master]
  | (k + 5), _, hnxt =>
    simp [spiritualLevels] at hnxt

/-- C13: for every rational `points` that is negative, or lies strictly between
the maximum of one tier and the minimum of the next, no tier matches, the loop
of `calculateSpiritualLevel` ends without returning, and the result is the raw
Student table entry, which has no `level` key and no `points` field; applied to
it, `getNextLevel` returns `student` as the next level (not `null`, not
`learner`), with `pointsNeeded` not a number.  The lookup is not monotone: 500
is Learner while 500.5 is reported as Student. -/
theorem fallback_outside_tiers (p : ℚ)
    (h : p < 0 ∨
      ∃ (i m : ℕ) (cur nxt : String × TierConfig),
        spiritualLevels.get? i = some cur ∧ spiritualLevels.get? (i + 1) = some nxt ∧
        cur.2.max = some m ∧ (m : ℚ) < p ∧ p < (nxt.2.min : ℚ)) :
    (∀ e : String × TierConfig, e ∈ spiritualLevels → inRange p e.2 = false) ∧
    calculateSpiritualLevel.loop p spiritualLevels = none ∧
    calculateSpiritualLevel p = .raw spiritualLevels.student ∧
    (calculateSpiritualLevel p).level = none ∧
    (calculateSpiritualLevel p).points = none ∧
    (calculateSpiritualLevel p).title = "Student" ∧
    getNextLevel (calculateSpiritualLevel p) = some ⟨"student", "Student", "🌱", 0, none⟩ ∧
    (calculateSpiritualLevel 500).level = some "learner" ∧
    (500 : ℚ) < 1001 / 2 ∧
    calculateSpiritualLevel (1001 / 2) = .raw spiritualLevels.student := by
  have hno : ∀ e : String × TierConfig, e ∈ spiritualLevels → inRange p e.2 = false := by
    rcases h with h | ⟨i, m, cur, nxt, hcur, hnxt, hm, h1, h2⟩
    · exact no_tier_of_neg p h
    · obtain ⟨hm', hmin⟩ := consecutive_entries i m cur nxt hcur hnxt hm
      rw [hmin] at h2
      push_cast at h2
      exact no_tier_in_gap p m hm' h1 h2
  have hraw := calculateSpiritualLevel_fallback p hno
  have h500 : calculateSpiritualLevel 500 = levelRecord ("learner", spiritualLevels.learner) 500 :=
    calculateSpiritualLevel_eq 500 _ (by simp [spiritualLevels])
      (by rw [inRange_iff]; simp [spiritualLevels.learner]; norm_num)
  have hhalf : calculateSpiritualLevel (1001 / 2) = .raw spiritualLevels.student :=
    calculateSpiritualLevel_fallback _
      (no_tier_in_gap (1001 / 2) 500 (by simp) (by norm_num) (by norm_num))
  refine ⟨hno, loop_eq_none p hno, hraw, ?_, ?_, ?_, ?_, ?_, by norm_num, hhalf⟩
  · rw [hraw]; rfl
  · rw [hraw]; rfl
  · rw [hraw]; rfl
  · rw [hraw]; exact getNextLevel_raw_student
  · rw [h500]; rfl

/-- Witness for C13: 500.5 lies between the maximum of Learner and the minimum
of Reciter. -/
theorem fallback_outside_tiers_witness :
    (∀ e : String × TierConfig, e ∈ spiritualLevels → inRange (1001 / 2) e.2 = false) ∧
    calculateSpiritualLevel.loop (1001 / 2) spiritualLevels = none ∧
    calculateSpiritualLevel (1001 / 2) = .raw spiritualLevels.student ∧
    (calculateSpiritualLevel (1001 / 2)).level = none ∧
    (calculateSpiritualLevel (1001 / 2)).points = none ∧
    (calculateSpiritualLevel (1001 / 2)).title = "Student" ∧
    getNextLevel (calculateSpiritualLevel (1001 / 2)) =
      some ⟨"student", "Student", "🌱", 0, none⟩ ∧
    (calculateSpiritualLevel 500).level = some "learner" ∧
    (500 : ℚ) < 1001 / 2 ∧
    calculateSpiritualLevel (1001 / 2) = .raw spiritualLevels.student :=
  fallback_outside_tiers (1001 / 2)
    (Or.inr ⟨1, 500, ("learner", spiritualLevels.learner), ("reciter", spiritualLevels.reciter),
      by simp [spiritualLevels], by simp [spiritualLevels], rfl,
      by norm_num, by simp [spiritualLevels.reciter]; norm_num⟩)

/-! ## Pipeline: the order of the calls -/

/-- The calls of a run of `updateSpiritualProgress` that resolves: the progress
read, the level-up notification when the level key changes, the progress
write. -/
theorem updateSpiritualProgress_calls_of_ok (components : Components) (userId : String)
    (earnedPoints : ℚ) (s : ProgressStore) (lvl : LevelValue)
    (h : (updateSpiritualProgress components userId earnedPoints s).result = .ok lvl) :
    lvl = calculateSpiritualLevel (s userId + earnedPoints) ∧
    (updateSpiritualProgress components userId earnedPoints s).calls =
      [.getProgress userId] ++
      ((if (calculateSpiritualLevel (s userId + earnedPoints)).level ≠
            (calculateSpiritualLevel (s userId)).level then
          [.sendLevelUpNotification ⟨userId, calculateSpiritualLevel (s userId),
            calculateSpiritualLevel (s userId + earnedPoints), earnedPoints⟩]
        else []) ++
       [.updateProgress userId ⟨earnedPoints, s userId + earnedPoints,
         calculateSpiritualLevel (s userId + earnedPoints)⟩]) := by
  rw [updateSpiritualProgress_run] at h ⊢
  by_cases hc : (calculateSpiritualLevel (s userId + earnedPoints)).level =
      (calculateSpiritualLevel (s userId)).level
  · simp only [hc, ne_eq, not_true_eq_false, if_false] at h ⊢
    simp only [Except.ok.injEq] at h
    exact ⟨h.symm, by simp⟩
  · simp only [hc, ne_eq, not_false_eq_true, if_true] at h ⊢
    cases hn : components.sendLevelUpNotification
        ⟨userId, calculateSpiritualLevel (s userId),
          calculateSpiritualLevel (s userId + earnedPoints), earnedPoints⟩ with
    | error e => simp only [hn] at h; cases h
    | ok u =>
      simp only [hn] at h ⊢
      simp only [Except.ok.injEq] at h
      exact ⟨h.symm, by simp⟩

/-- A run of `analyzeRecitation` that resolves went through every step: each
collaborator answered, and the result is assembled from the answers. -/
theorem analyzeRecitation_ok_inv (components : Components) (audioData : Buffer)
    (userId : String) (options : Options) (s : ProgressStore) (r : Results)
    (h : (analyzeRecitation components audioData userId options s).result = .ok r) :
    ∃ (a : AiAnalysis) (hc : Option Correction) (att : Attestation) (c t : ℚ)
      (jp : JannahPoints) (er : EternalRecord) (lvl : LevelValue),
      components.analyze (analyzeRequest audioData userId options) = .ok a ∧
      (if (a.needsHumanReview || options.requestHumanReview) = true then
          Except.map some (components.requestCorrection (correctionRequest a userId options))
        else .ok none) = .ok hc ∧
      components.record (attestationRequest a userId options) = .ok att ∧
      components.getConsistencyScore userId = .ok c ∧
      components.getTeachingBonus userId = .ok t ∧
      components.calculate (pointsRequest a c t) = .ok jp ∧
      components.store ⟨a, att, jp, hc, "200+ years", userId⟩ = .ok er ∧
      (updateSpiritualProgress components userId jp.earned s).result = .ok lvl ∧
      components.sendProgressUpdate ⟨userId, jp, lvl, a.suggestions⟩ = .ok () ∧
      r = ⟨true, a, hc, att, jp, er, lvl, "Every letter counts for Jannah"⟩ := by
  unfold analyzeRecitation at h
  rw [Eff.tryCatch_throw] at h
  simp only [Eff.bind_eq, Eff.pure_eq, getUserConsistency, getTeachingBonus,
    Eff.bind_calls, Eff.bind_result, Eff.bind_store, Eff.call_calls, Eff.call_result,
    Eff.call_store, Eff.pure_calls, Eff.pure_result, Eff.pure_store,
    escalation_calls, escalation_store, escalation_result] at h
  generalize updateSpiritualProgress components userId = upd at h ⊢
  cases h1 : components.analyze (analyzeRequest audioData userId options) with
  | error e => simp only [h1] at h; cases h
  | ok a =>
  simp only [h1] at h
  cases h2 : (if (a.needsHumanReview || options.requestHumanReview) = true then
      Except.map some (components.requestCorrection (correctionRequest a userId options))
    else Except.ok none) with
  | error e => simp only [h2] at h; cases h
  | ok hc =>
  simp only [h2] at h
  cases h3 : components.record (attestationRequest a userId options) with
  | error e => simp only [h3] at h; cases h
  | ok att =>
  simp only [h3] at h
  cases h4 : components.getConsistencyScore userId with
  | error e => simp only [h4] at h; cases h
  | ok c =>
  simp only [h4] at h
  cases h5 : components.getTeachingBonus userId with
  | error e => simp only [h5] at h; cases h
  | ok t =>
  simp only [h5] at h
  cases h6 : components.calculate (pointsRequest a c t) with
  | error e => simp only [h6] at h; cases h
  | ok jp =>
  simp only [h6] at h
  cases h7 : components.store ⟨a, att, jp, hc, "200+ years", userId⟩ with
  | error e => simp only [h7] at h; cases h
  | ok er =>
  simp only [h7] at h
  cases h8 : (upd jp.earned s).result with
  | error e => simp only [h8] at h; cases h
  | ok lvl =>
  simp only [h8] at h
  cases h9 : components.sendProgressUpdate ⟨userId, jp, lvl, a.suggestions⟩ with
  | error e => simp only [h9] at h; cases h
  | ok u =>
  simp only [h9] at h
  refine ⟨a, hc, att, c, t, jp, er, lvl, ?_, ?_, ?_, ?_, ?_, ?_, ?_, ?_, ?_,
    (Except.ok.inj h).symm⟩ <;>
    first
      | rfl
      | assumption

/-- The call log of a run of `analyzeRecitation` that resolves with `r`. -/
theorem analyzeRecitation_calls_of_ok (components : Components) (audioData : Buffer)
    (userId : String) (options : Options) (s : ProgressStore) (r : Results)
    (h : (analyzeRecitation components audioData userId options s).result = .ok r) :
    ∃ c t : ℚ,
      components.getConsistencyScore userId = .ok c ∧
      components.getTeachingBonus userId = .ok t ∧
      (analyzeRecitation components audioData userId options s).calls =
        [.analyze (analyzeRequest audioData userId options)] ++
        ((if (r.analysis.needsHumanReview || options.requestHumanReview) = true then
            [.requestCorrection (correctionRequest r.analysis userId options)] else []) ++
         ([.record (attestationRequest r.analysis userId options),
           .getConsistencyScore userId,
           .getTeachingBonus userId,
           .calculate (pointsRequest r.analysis c t),
           .store ⟨r.analysis, r.attestation, r.jannahPoints, r.correction, "200+ years",
             userId⟩,
           .getProgress userId] ++
          ((if (calculateSpiritualLevel (s userId + r.jannahPoints.earned)).level ≠
                (calculateSpiritualLevel (s userId)).level then
              [.sendLevelUpNotification ⟨userId, calculateSpiritualLevel (s userId),
                calculateSpiritualLevel (s userId + r.jannahPoints.earned),
                r.jannahPoints.earned⟩]
            else []) ++
           [.updateProgress userId ⟨r.jannahPoints.earned, s userId + r.jannahPoints.earned,
              calculateSpiritualLevel (s userId + r.jannahPoints.earned)⟩,
            .sendProgressUpdate ⟨userId, r.jannahPoints, r.spiritualLevel,
              r.analysis.suggestions⟩]))) := by
  obtain ⟨a, hc, att, c, t, jp, er, lvl, h1, h2, h3, h4, h5, h6, h7, h8, h9, hr⟩ :=
    analyzeRecitation_ok_inv components audioData userId options s r h
  obtain ⟨-, -, r3⟩ := analyzeRecitation_success components audioData userId options s a hc
    att c t jp er lvl h1 h2 h3 h4 h5 h6 h7 h8 h9
  obtain ⟨-, hu⟩ := updateSpiritualProgress_calls_of_ok components userId jp.earned s lvl h8
  subst hr
  refine ⟨c, t, h4, h5, ?_⟩
  rw [r3, hu]
  simp only [List.append_assoc, List.cons_append, List.nil_append]

/-- In a run that resolves, the record is handed to storage before the progress
store is written: the log splits at the `store` call into a part without
progress write and a part holding the one progress write. -/
theorem store_before_update (components : Components) (audioData : Buffer)
    (userId : String) (options : Options) (s : ProgressStore) (r : Results)
    (h : (analyzeRecitation components audioData userId options s).result = .ok r) :
    ∃ pre post : List Call,
      (analyzeRecitation components audioData userId options s).calls =
        pre ++ Call.store ⟨r.analysis, r.attestation, r.jannahPoints, r.correction,
          "200+ years", userId⟩ :: post ∧
      progressUpdates pre = [] ∧
      progressUpdates post =
        [(userId, ⟨r.jannahPoints.earned, s userId + r.jannahPoints.earned,
          calculateSpiritualLevel (s userId + r.jannahPoints.earned)⟩)] := by
  obtain ⟨c, t, -, -, hcalls⟩ :=
    analyzeRecitation_calls_of_ok components audioData userId options s r h
  refine ⟨[.analyze (analyzeRequest audioData userId options)] ++
      ((if (r.analysis.needsHumanReview || options.requestHumanReview) = true then
          [.requestCorrection (correctionRequest r.analysis userId options)] else []) ++
        [.record (attestationRequest r.analysis userId options),
         .getConsistencyScore userId,
         .getTeachingBonus userId,
         .calculate (pointsRequest r.analysis c t)]),
    [.getProgress userId] ++
      ((if (calculateSpiritualLevel (s userId + r.jannahPoints.earned)).level ≠
            (calculateSpiritualLevel (s userId)).level then
          [.sendLevelUpNotification ⟨userId, calculateSpiritualLevel (s userId),
            calculateSpiritualLevel (s userId + r.jannahPoints.earned),
            r.jannahPoints.earned⟩]
        else []) ++
       [.updateProgress userId ⟨r.jannahPoints.earned, s userId + r.jannahPoints.earned,
          calculateSpiritualLevel (s userId + r.jannahPoints.earned)⟩,
        .sendProgressUpdate ⟨userId, r.jannahPoints, r.spiritualLevel,
          r.analysis.suggestions⟩]), ?_, ?_, ?_⟩
  · rw [hcalls]
    simp only [List.append_assoc, List.cons_append, List.nil_append]
  · cases (r.analysis.needsHumanReview || options.requestHumanReview) <;>
      simp [progressUpdates]
  · by_cases hl : (calculateSpiritualLevel (s userId + r.jannahPoints.earned)).level =
        (calculateSpiritualLevel (s userId)).level <;>
      simp [progressUpdates, hl]

/-- C11, as stated, fails: in the successful sample run (0 cumulative points,
award 5) the composite record is handed to storage first, and the progress
write for the award comes after it in the call log. -/
theorem progress_update_after_storage :
    ∃ (r : Results) (pre post : List Call),
      (analyzeRecitation (sampleComponents sampleAnalysis 5) [] "u" sampleOptions
        (sampleStore 0)).result = .ok r ∧
      (analyzeRecitation (sampleComponents sampleAnalysis 5) [] "u" sampleOptions
        (sampleStore 0)).calls =
        pre ++ Call.store ⟨r.analysis, r.attestation, r.jannahPoints, r.correction,
          "200+ years", "u"⟩ :: post ∧
      progressUpdates pre = [] ∧
      progressUpdates post = [("u", ⟨5, 5, calculateSpiritualLevel 5⟩)] := by
  obtain ⟨a, hc, att, c, t, jp, er, -, -, -, h6, hr, -⟩ :=
    analyzeRecitation_allSucceed (sampleComponents sampleAnalysis 5)
      (sampleComponents_allSucceed sampleAnalysis 5) [] "u" sampleOptions (sampleStore 0)
  have hj : jp = ⟨5⟩ := by
    simp [sampleComponents] at h6; exact h6.symm
  subst hj
  obtain ⟨pre, post, h1, h2, h3⟩ := store_before_update (sampleComponents sampleAnalysis 5)
    [] "u" sampleOptions (sampleStore 0) _ hr
  refine ⟨_, pre, post, hr, h1, h2, ?_⟩
  rw [h3]
  simp [sampleStore]

/-- C11, amended: in every run of `analyzeRecitation` that resolves with `r`,
the calls are, in order: the analysis, the escalation request (if triggered),
the attestation, the consistency and teaching reads, the points calculation,
the storage of the composite record, then the progress update (progress read,
level-up notification if the level key changed, progress write) and last the
progress notification.  The progress write always comes after the record has
been handed to storage. -/
theorem call_order (components : Components) (audioData : Buffer)
    (userId : String) (options : Options) (s : ProgressStore) (r : Results)
    (h : (analyzeRecitation components audioData userId options s).result = .ok r) :
    (∃ c t : ℚ,
      components.getConsistencyScore userId = .ok c ∧
      components.getTeachingBonus userId = .ok t ∧
      (analyzeRecitation components audioData userId options s).calls =
        [.analyze (analyzeRequest audioData userId options)] ++
          ((if (r.analysis.needsHumanReview || options.requestHumanReview) = true then
              [.requestCorrection (correctionRequest r.analysis userId options)] else []) ++
           ([.record (attestationRequest r.analysis userId options),
             .getConsistencyScore userId,
             .getTeachingBonus userId,
             .calculate (pointsRequest r.analysis c t),
             .store ⟨r.analysis, r.attestation, r.jannahPoints, r.correction, "200+ years",
               userId⟩,
             .getProgress userId] ++
            ((if (calculateSpiritualLevel (s userId + r.jannahPoints.earned)).level ≠
                  (calculateSpiritualLevel (s userId)).level then
                [.sendLevelUpNotification ⟨userId, calculateSpiritualLevel (s userId),
                  calculateSpiritualLevel (s userId + r.jannahPoints.earned),
                  r.jannahPoints.earned⟩]
              else []) ++
             [.updateProgress userId ⟨r.jannahPoints.earned, s userId + r.jannahPoints.earned,
                calculateSpiritualLevel (s userId + r.jannahPoints.earned)⟩,
              .sendProgressUpdate ⟨userId, r.jannahPoints, r.spiritualLevel,
                r.analysis.suggestions⟩])))) ∧
    (∃ pre post : List Call,
      (analyzeRecitation components audioData userId options s).calls =
        pre ++ Call.store ⟨r.analysis, r.attestation, r.jannahPoints, r.correction,
          "200+ years", userId⟩ :: post ∧
      progressUpdates pre = [] ∧
      progressUpdates post =
        [(userId, ⟨r.jannahPoints.earned, s userId + r.jannahPoints.earned,
          calculateSpiritualLevel (s userId + r.jannahPoints.earned)⟩)]) :=
  ⟨analyzeRecitation_calls_of_ok components audioData userId options s r h,
    store_before_update components audioData userId options s r h⟩

/-- The result of the successful sample run (0 cumulative points, award 5). -/
theorem sampleRun_result :
    (analyzeRecitation (sampleComponents sampleAnalysis 5) [] "u" sampleOptions
      (sampleStore 0)).result =
      .ok ⟨true, sampleAnalysis, none, ⟨"0xabc"⟩, ⟨5⟩, ⟨"0xdef"⟩,
        calculateSpiritualLevel (sampleStore 0 "u" + 5), "Every letter counts for Jannah"⟩ :=
  (analyzeRecitation_success (sampleComponents sampleAnalysis 5) [] "u" sampleOptions
    (sampleStore 0) sampleAnalysis none ⟨"0xabc"⟩ (4 / 5) 1 ⟨5⟩ ⟨"0xdef"⟩
    (calculateSpiritualLevel (sampleStore 0 "u" + 5)) rfl rfl rfl rfl rfl rfl rfl
    (updateSpiritualProgress_ok (sampleComponents sampleAnalysis 5) "u" 5 (sampleStore 0)
      (fun _ => rfl)).1 rfl).1

/-- Witness for C11 (amended): the successful sample run. -/
theorem call_order_witness :
    ∃ r : Results,
      (analyzeRecitation (sampleComponents sampleAnalysis 5) [] "u" sampleOptions
        (sampleStore 0)).result = .ok r ∧
      (∃ c t : ℚ,
        (sampleComponents sampleAnalysis 5).getConsistencyScore "u" = .ok c ∧
        (sampleComponents sampleAnalysis 5).getTeachingBonus "u" = .ok t ∧
        (analyzeRecitation (sampleComponents sampleAnalysis 5) [] "u" sampleOptions
          (sampleStore 0)).calls =
          [.analyze (analyzeRequest [] "u" sampleOptions)] ++
          ((if (r.analysis.needsHumanReview || sampleOptions.requestHumanReview) = true then
              [.requestCorrection (correctionRequest r.analysis "u" sampleOptions)] else []) ++
           ([.record (attestationRequest r.analysis "u" sampleOptions),
             .getConsistencyScore "u",
             .getTeachingBonus "u",
             .calculate (pointsRequest r.analysis c t),
             .store ⟨r.analysis, r.attestation, r.jannahPoints, r.correction, "200+ years",
               "u"⟩,
             .getProgress "u"] ++
            ((if (calculateSpiritualLevel (sampleStore 0 "u" + r.jannahPoints.earned)).level ≠
                  (calculateSpiritualLevel (sampleStore 0 "u")).level then
                [.sendLevelUpNotification ⟨"u", calculateSpiritualLevel (sampleStore 0 "u"),
                  calculateSpiritualLevel (sampleStore 0 "u" + r.jannahPoints.earned),
                  r.jannahPoints.earned⟩]
              else []) ++
             [.updateProgress "u" ⟨r.jannahPoints.earned,
                sampleStore 0 "u" + r.jannahPoints.earned,
                calculateSpiritualLevel (sampleStore 0 "u" + r.jannahPoints.earned)⟩,
              .sendProgressUpdate ⟨"u", r.jannahPoints, r.spiritualLevel,
                r.analysis.suggestions⟩])))) ∧
      (∃ pre post : List Call,
        (analyzeRecitation (sampleComponents sampleAnalysis 5) [] "u" sampleOptions
          (sampleStore 0)).calls =
          pre ++ Call.store ⟨r.analysis, r.attestation, r.jannahPoints, r.correction,
            "200+ years", "u"⟩ :: post ∧
        progressUpdates pre = [] ∧
        progressUpdates post =
          [("u", ⟨r.jannahPoints.earned, sampleStore 0 "u" + r.jannahPoints.earned,
            calculateSpiritualLevel (sampleStore 0 "u" + r.jannahPoints.earned)⟩)]) :=
  ⟨_, sampleRun_result,
    call_order (sampleComponents sampleAnalysis 5) [] "u" sampleOptions (sampleStore 0) _
      sampleRun_result⟩

end QuranLab
